import Mathlib

/-!
Verification of the production-readiness analyzer (React SPA + Express proxy).

The development shallowly embeds the JavaScript/TypeScript source:

* JSON values are modelled by the inductive type `Json`.  Numeric literals
  keep their source lexeme (no claim in this development depends on numeric
  arithmetic), and the absent value `undefined` is modelled by `Option Json`
  (`none` = absent / `undefined`).
* JavaScript property access `x.f`, which throws a `TypeError` on `null` or
  `undefined` receivers and yields `undefined` on other non-object values,
  is modelled by `getField` returning `Except String (Option Json)`.
* The `x || y` defaulting idiom is modelled by `jsOr` via JS truthiness.
* Handlers that can throw are modelled in the `Except` monad; a JS
  `try { ... } catch` block becomes a `match` on the `Except` result.
-/

/-- A JSON value.  `num` stores the numeric literal's lexeme verbatim: the
repository's claims never perform arithmetic on report values, and keeping
the lexeme makes `JSON.parse` / `JSON.stringify` faithful on numbers. -/
inductive Json where
  | null : Json
  | bool (b : Bool) : Json
  | num (lexeme : String) : Json
  | str (s : String) : Json
  | arr (elems : List Json) : Json
  | obj (fields : List (String × Json)) : Json

/-- JS truthiness of a number literal: a decimal literal denotes zero iff its
mantissa (the part before any exponent marker) contains no nonzero digit. -/
def numLexemeIsZero (s : String) : Bool :=
  (s.toList.takeWhile (fun c => c != 'e' && c != 'E')).all
    (fun c => !c.isDigit || c == '0')

/-- JS truthiness of a value (`Boolean(v)`). -/
def jsTruthy : Json → Bool
  | .null => false
  | .bool b => b
  | .num s => !numLexemeIsZero s
  | .str s => s != ""
  | .arr _ => true
  | .obj _ => true

/-- JS truthiness of a possibly-absent value (`undefined` is falsy). -/
def jsTruthyOpt : Option Json → Bool
  | none => false
  | some v => jsTruthy v

/-- The JS defaulting idiom `v || d` applied to a possibly-absent value. -/
def jsOr (v : Option Json) (d : Json) : Json :=
  match v with
  | none => d
  | some x => if jsTruthy x then x else d

/-- First binding of key `k` in an object's field list. -/
def lookupField : List (String × Json) → String → Option Json
  | [], _ => none
  | (k', v) :: rest, k => if k' = k then some v else lookupField rest k

/-- JS property access `x.f`: throws a TypeError on `null` receivers, yields
the binding on objects and `undefined` on every other primitive value. -/
def getField : Json → String → Except String (Option Json)
  | .null, k => .error ("TypeError: Cannot read properties of null (reading '" ++ k ++ "')")
  | .obj fields, k => .ok (lookupField fields k)
  | _, _ => .ok none

/-- JS property access on a possibly-absent receiver: `undefined.f` throws. -/
def getFieldOpt : Option Json → String → Except String (Option Json)
  | none, k => .error ("TypeError: Cannot read properties of undefined (reading '" ++ k ++ "')")
  | some v, k => getField v k

/-- Repository identification block of a report
(`RepositoryInfo` in `types/report.ts`). -/
structure RepositoryInfo where
  url : String
  owner : String
  repo : String
  analyzedAt : String

/-- A production-readiness report as constructed at runtime by
`generateProductionReport` in `lib/analyzer.ts`.  The fields populated from
the upstream JSON carry whatever JSON value the proxy returned (the `as
ReadinessStatus` cast in the source is a compile-time assertion only), so
they are typed `Json` here. -/
structure ProductionReport where
  id : String
  repository : RepositoryInfo
  summary : Json
  overallStatus : Json
  domains : Json
  criticalIssues : Json
  recommendations : Json
  conclusion : Json
  createdAt : String

/-- The closed readiness-status enumeration of `types/report.ts`
(`ReadinessStatus`). -/
def readinessStatuses : List String := ["ready", "conditional", "not-ready", "unknown"]

/-- The fallback report built in the `catch` branch of
`generateProductionReport` (`lib/analyzer.ts`). -/
def fallbackReport (owner repo url analyzedAt : String) (now : Nat) : ProductionReport :=
  { id := "report-" ++ toString now
    repository := { url := url, owner := owner, repo := repo, analyzedAt := analyzedAt }
    summary := .str "حدث خطأ أثناء تحليل المستودع"
    overallStatus := .str "unknown"
    domains := .arr []
    criticalIssues := .arr [.str "فشل في توليد التقرير بسبب خطأ في الخدمة"]
    recommendations := .arr [.str "يرجى المحاولة مرة أخرى لاحقاً"]
    conclusion := .str "لم يتم التوصل إلى خلاصة"
    createdAt := analyzedAt }

/-- Embedding of `generateProductionReport` from `lib/analyzer.ts`.
`reportData` is the outcome of `callProxyAnalysis` (`.error` when the proxy
call or a property access threw, which the source `catch`es into the
fallback report); `now` is the value of `Date.now()` at construction time.
The success branch mirrors the source's field defaulting
(`reportData.summary || defaultText`, etc.) via `jsOr`. -/
def generateProductionReport (reportData : Except String Json)
    (owner repo url analyzedAt : String) (now : Nat) : ProductionReport :=
  let built : Except String ProductionReport := do
    let d ← reportData
    let summary ← getField d "summary"
    let overallStatus ← getField d "overallStatus"
    let domains ← getField d "domains"
    let criticalIssues ← getField d "criticalIssues"
    let recommendations ← getField d "recommendations"
    let conclusion ← getField d "conclusion"
    pure
      { id := "report-" ++ toString now
        repository := { url := url, owner := owner, repo := repo, analyzedAt := analyzedAt }
        summary := jsOr summary (.str "لم يتم توفير ملخص")
        overallStatus := jsOr overallStatus (.str "unknown")
        domains := jsOr domains (.arr [])
        criticalIssues := jsOr criticalIssues (.arr [])
        recommendations := jsOr recommendations (.arr [])
        conclusion := jsOr conclusion (.str "لم يتم التوصل إلى خلاصة")
        createdAt := analyzedAt }
  match built with
  | .ok r => r
  | .error _ => fallbackReport owner repo url analyzedAt now

/-- State update of `handleDeleteReport` in `App.tsx`:
`currentReports.filter(r => r.id !== reportId)`. -/
def handleDeleteReport (reports : List ProductionReport) (reportId : String) :
    List ProductionReport :=
  reports.filter (fun r => r.id != reportId)

example :
    (generateProductionReport (.ok (.obj [("overallStatus", .str "maybe")]))
      "o" "r" "u" "t" 5).overallStatus = .str "maybe" := rfl

example :
    (generateProductionReport (.error "boom") "o" "r" "u" "t" 5).overallStatus
      = .str "unknown" := rfl

/-- Whitespace characters of the JSON grammar (accepted by `JSON.parse`
around tokens). -/
def isJsonWs (c : Char) : Bool :=
  c == ' ' || c == '\t' || c == '\n' || c == '\r'

/-- Drops leading JSON whitespace. -/
def skipJsonWs (l : List Char) : List Char :=
  l.dropWhile isJsonWs

/-- Value of one hexadecimal digit. -/
def hexVal (c : Char) : Option Nat :=
  let n := c.toNat
  if 48 ≤ n && n ≤ 57 then some (n - 48)
  else if 97 ≤ n && n ≤ 102 then some (n - 87)
  else if 65 ≤ n && n ≤ 70 then some (n - 55)
  else none

/-- Body of a JSON string literal after the opening quote: returns the
decoded characters and the input remaining after the closing quote. -/
def parseStringChars : List Char → Option (List Char × List Char)
  | [] => none
  | '"' :: rest => some ([], rest)
  | '\\' :: rest =>
    match rest with
    | '"' :: r => (parseStringChars r).map (fun p => ('"' :: p.1, p.2))
    | '\\' :: r => (parseStringChars r).map (fun p => ('\\' :: p.1, p.2))
    | '/' :: r => (parseStringChars r).map (fun p => ('/' :: p.1, p.2))
    | 'b' :: r => (parseStringChars r).map (fun p => ('\x08' :: p.1, p.2))
    | 'f' :: r => (parseStringChars r).map (fun p => ('\x0c' :: p.1, p.2))
    | 'n' :: r => (parseStringChars r).map (fun p => ('\n' :: p.1, p.2))
    | 'r' :: r => (parseStringChars r).map (fun p => ('\r' :: p.1, p.2))
    | 't' :: r => (parseStringChars r).map (fun p => ('\t' :: p.1, p.2))
    | 'u' :: h1 :: h2 :: h3 :: h4 :: r =>
      match hexVal h1, hexVal h2, hexVal h3, hexVal h4 with
      | some a, some b, some c, some d =>
        (parseStringChars r).map
          (fun p => (Char.ofNat (((a * 16 + b) * 16 + c) * 16 + d) :: p.1, p.2))
      | _, _, _, _ => none
    | _ => none
  | c :: rest =>
    if c.toNat < 32 then none
    else (parseStringChars rest).map (fun p => (c :: p.1, p.2))

/-- Lexeme of a JSON number starting at the head of the input (a superset of
the JSON number grammar: a sign followed by digits, `.`, `e`, `E`, `+`,
`-`).  The lexeme is kept verbatim in `Json.num`. -/
def spanNumber (l : List Char) : List Char × List Char :=
  match l with
  | c :: rest =>
    if c == '-' then
      let p := rest.span (fun d => d.isDigit || d == '.' || d == 'e' || d == 'E' || d == '+' || d == '-')
      (c :: p.1, p.2)
    else
      l.span (fun d => d.isDigit || d == '.' || d == 'e' || d == 'E' || d == '+' || d == '-')
  | [] => ([], [])

mutual

/-- Recursive-descent JSON value parser (`JSON.parse`), fuel-indexed; the
fuel only bounds nesting depth, so `length + 1` fuel always suffices. -/
def parseJsonVal : Nat → List Char → Option (Json × List Char)
  | 0, _ => none
  | fuel + 1, input =>
    match skipJsonWs input with
    | 'n' :: 'u' :: 'l' :: 'l' :: rest => some (.null, rest)
    | 't' :: 'r' :: 'u' :: 'e' :: rest => some (.bool true, rest)
    | 'f' :: 'a' :: 'l' :: 's' :: 'e' :: rest => some (.bool false, rest)
    | '"' :: rest => (parseStringChars rest).map (fun p => (.str (String.mk p.1), p.2))
    | '[' :: rest => parseJsonArrayRest fuel rest
    | '\x7b' :: rest => parseJsonObjRest fuel rest
    | c :: rest =>
      if c == '-' || c.isDigit then
        match spanNumber (c :: rest) with
        | ([], _) => none
        | (lex, after) => some (.num (String.mk lex), after)
      else none
    | [] => none

/-- Elements of a JSON array after the opening bracket. -/
def parseJsonArrayRest (fuel : Nat) (l : List Char) : Option (Json × List Char) :=
  match fuel with
  | 0 => none
  | fuel + 1 =>
    match skipJsonWs l with
    | ']' :: rest => some (.arr [], rest)
    | other =>
      match parseJsonItems fuel other with
      | some (items, rest) => some (.arr items, rest)
      | none => none

/-- Non-empty comma-separated list of array elements and the closing
bracket. -/
def parseJsonItems (fuel : Nat) (l : List Char) : Option (List Json × List Char) :=
  match fuel with
  | 0 => none
  | fuel + 1 =>
    match parseJsonVal fuel l with
    | none => none
    | some (v, rest) =>
      match skipJsonWs rest with
      | ',' :: rest2 =>
        match parseJsonItems fuel rest2 with
        | some (items, rest3) => some (v :: items, rest3)
        | none => none
      | ']' :: rest2 => some ([v], rest2)
      | _ => none

/-- Members of a JSON object after the opening brace. -/
def parseJsonObjRest (fuel : Nat) (l : List Char) : Option (Json × List Char) :=
  match fuel with
  | 0 => none
  | fuel + 1 =>
    match skipJsonWs l with
    | '\x7d' :: rest => some (.obj [], rest)
    | other =>
      match parseJsonMembers fuel other with
      | some (fields, rest) => some (.obj fields, rest)
      | none => none

/-- Non-empty comma-separated list of object members and the closing
brace. -/
def parseJsonMembers (fuel : Nat) (l : List Char) : Option (List (String × Json) × List Char) :=
  match fuel with
  | 0 => none
  | fuel + 1 =>
    match skipJsonWs l with
    | '"' :: rest =>
      match parseStringChars rest with
      | none => none
      | some (key, rest2) =>
        match skipJsonWs rest2 with
        | ':' :: rest3 =>
          match parseJsonVal fuel rest3 with
          | none => none
          | some (v, rest4) =>
            match skipJsonWs rest4 with
            | ',' :: rest5 =>
              match parseJsonMembers fuel rest5 with
              | some (fields, rest6) => some ((String.mk key, v) :: fields, rest6)
              | none => none
            | '\x7d' :: rest5 => some ([(String.mk key, v)], rest5)
            | _ => none
        | _ => none
    | _ => none

end

/-- Model of `JSON.parse`: parses the whole string (allowing surrounding
whitespace), `none` when the builtin would throw a `SyntaxError`.  The model
is deliberately lenient (it accepts a superset of the JSON grammar), so
`jsonParse s = none` implies the builtin throws on `s`. -/
def jsonParse (s : String) : Option Json :=
  match parseJsonVal (s.length + 1) s.toList with
  | some (j, rest) => if (skipJsonWs rest).isEmpty then some j else none
  | none => none

/-- Initial read of `useKV` in `App.tsx`:
`stored ? JSON.parse(stored) : defaultValue` inside `try/catch` returning
`defaultValue`.  `stored = none` models `localStorage.getItem` returning
`null`. -/
def loadStoredValue (stored : Option String) (defaultValue : Json) : Json :=
  match stored with
  | none => defaultValue
  | some s =>
    if s == "" then defaultValue
    else
      match jsonParse s with
      | some j => j
      | none => defaultValue

example : jsonParse "7" = some (.num "7") := rfl
example : jsonParse "\x7b" = none := rfl
example : jsonParse "[\"a\", 1]" = some (.arr [.str "a", .num "1"]) := rfl
example : loadStoredValue (some "7") (.arr []) = .num "7" := rfl

lemma jsOr_of_not_truthy (v : Option Json) (d : Json) (h : jsTruthyOpt v = false) :
    jsOr v d = d := by
  cases v with
  | none => rfl
  | some x =>
    simp only [jsTruthyOpt] at h
    simp [jsOr, h]

lemma jsOr_of_truthy (x d : Json) (h : jsTruthy x = true) : jsOr (some x) d = x := by
  simp [jsOr, h]

lemma generateProductionReport_ok_obj (fields : List (String × Json))
    (owner repo url t : String) (now : Nat) :
    generateProductionReport (.ok (.obj fields)) owner repo url t now =
      { id := "report-" ++ toString now
        repository := { url := url, owner := owner, repo := repo, analyzedAt := t }
        summary := jsOr (lookupField fields "summary") (.str "لم يتم توفير ملخص")
        overallStatus := jsOr (lookupField fields "overallStatus") (.str "unknown")
        domains := jsOr (lookupField fields "domains") (.arr [])
        criticalIssues := jsOr (lookupField fields "criticalIssues") (.arr [])
        recommendations := jsOr (lookupField fields "recommendations") (.arr [])
        conclusion := jsOr (lookupField fields "conclusion") (.str "لم يتم التوصل إلى خلاصة")
        createdAt := t } := rfl

/-- C1 (counterexample): an upstream report whose overallStatus is the
truthy string "in-progress" — outside the closed enumeration — is stored
with that status unchanged, not degraded to "unknown". -/
theorem c1_overallStatus_not_degraded :
    (generateProductionReport (.ok (.obj [("overallStatus", .str "in-progress")]))
        "o" "r" "u" "t" 1).overallStatus = .str "in-progress"
    ∧ "in-progress" ∉ readinessStatuses
    ∧ Json.str "in-progress" ≠ Json.str "unknown" := by
  refine ⟨rfl, by decide, fun h => ?_⟩
  injection h with h2
  exact absurd h2 (by decide)

/-- C1 (amended): at report construction, a missing or falsy
`overallStatus` defaults to "unknown", while every truthy value — including
strings outside the closed readiness enumeration — is stored unchanged (the
`as ReadinessStatus` cast performs no runtime validation). -/
theorem c1_overallStatus_defaulting (fields : List (String × Json))
    (owner repo url t : String) (now : Nat) :
    (jsTruthyOpt (lookupField fields "overallStatus") = false →
      (generateProductionReport (.ok (.obj fields)) owner repo url t now).overallStatus
        = .str "unknown")
    ∧ (∀ v : Json, lookupField fields "overallStatus" = some v → jsTruthy v = true →
      (generateProductionReport (.ok (.obj fields)) owner repo url t now).overallStatus
        = v) := by
  rw [generateProductionReport_ok_obj]
  constructor
  · intro h
    exact jsOr_of_not_truthy _ _ h
  · intro v hv htruthy
    rw [hv]
    exact jsOr_of_truthy _ _ htruthy

/-- C1 (witness): instantiates the amended claim at a report whose
overallStatus is present and truthy. -/
theorem c1_overallStatus_defaulting_witness :
    (generateProductionReport (.ok (.obj [("overallStatus", .str "ready")]))
        "o" "r" "u" "t" 1).overallStatus = .str "ready" :=
  (c1_overallStatus_defaulting [("overallStatus", .str "ready")] "o" "r" "u" "t" 1).2
    (.str "ready") rfl rfl

/-- Two distinct reports that received the same creation millisecond and
therefore the same id. -/
def sampleReportDup1 : ProductionReport := fallbackReport "alice" "repo" "u" "t" 5

/-- Second report with the same id as `sampleReportDup1`. -/
def sampleReportDup2 : ProductionReport := fallbackReport "bob" "repo" "u" "t" 5

/-- C8 (counterexample): with two stored reports carrying the same id,
deleting by that id removes both entries — not exactly one. -/
theorem c8_delete_removes_both :
    [sampleReportDup1, sampleReportDup2].map (fun r => r.id) = ["report-5", "report-5"]
    ∧ handleDeleteReport [sampleReportDup1, sampleReportDup2] "report-5" = [] :=
  ⟨rfl, rfl⟩

/-- C8 (amended): if the id occurs in exactly one stored report, deleting
by that id removes exactly that entry and leaves the relative order of the
remaining reports unchanged. -/
theorem c8_handleDeleteReport_unique (l : List ProductionReport) (i : String)
    (h : l.countP (fun r => r.id == i) = 1) :
    ∃ pre x post, l = pre ++ x :: post ∧ x.id = i
      ∧ (∀ r ∈ pre, r.id ≠ i) ∧ (∀ r ∈ post, r.id ≠ i)
      ∧ handleDeleteReport l i = pre ++ post := by
  induction l with
  | nil => simp at h
  | cons a l ih =>
    rw [List.countP_cons] at h
    by_cases ha : a.id = i
    · have hrest : ∀ r ∈ l, r.id ≠ i := by
        simpa [ha] using h
      refine ⟨[], a, l, rfl, ha, by simp, hrest, ?_⟩
      unfold handleDeleteReport
      rw [List.filter_cons]
      have hfa : (a.id != i) = false := by simp [ha]
      rw [hfa]
      simp only [List.nil_append, if_neg Bool.false_ne_true]
      rw [List.filter_eq_self.mpr]
      intro r hr
      simpa using hrest r hr
    · have h' : l.countP (fun r => r.id == i) = 1 := by
        simpa [ha] using h
      obtain ⟨pre, x, post, hl, hx, hpre, hpost, hdel⟩ := ih h'
      refine ⟨a :: pre, x, post, by simp [hl], hx, ?_, hpost, ?_⟩
      · intro r hr
        rcases List.mem_cons.mp hr with hr | hr
        · rw [hr]; exact ha
        · exact hpre r hr
      · unfold handleDeleteReport at hdel ⊢
        rw [List.filter_cons]
        have hfa : (a.id != i) = true := by simpa using ha
        rw [hfa]
        simp only [if_pos rfl]
        rw [hdel]
        rfl

/-- Reports with distinct ids (created in distinct milliseconds). -/
def sampleReportA : ProductionReport := fallbackReport "alice" "repo" "u" "t" 1

/-- Second sample report, id distinct from `sampleReportA`. -/
def sampleReportB : ProductionReport := fallbackReport "bob" "repo" "u" "t" 2

/-- C8 (witness): applies the amended deletion theorem to a two-element
store with distinct ids. -/
theorem c8_handleDeleteReport_unique_witness :
    ∃ pre x post, [sampleReportA, sampleReportB] = pre ++ x :: post ∧ x.id = "report-1"
      ∧ (∀ r ∈ pre, r.id ≠ "report-1") ∧ (∀ r ∈ post, r.id ≠ "report-1")
      ∧ handleDeleteReport [sampleReportA, sampleReportB] "report-1" = pre ++ post :=
  c8_handleDeleteReport_unique [sampleReportA, sampleReportB] "report-1" rfl

/-- C9 (counterexample): a corrupt-but-parseable stored value — the string
"7" — is returned as the number 7, not resolved to the empty list. -/
theorem c9_parseable_garbage_returned :
    loadStoredValue (some "7") (.arr []) = .num "7"
    ∧ Json.num "7" ≠ Json.arr [] :=
  ⟨rfl, fun h => Json.noConfusion h⟩

/-- C9 (amended): a missing stored value, an empty stored string, or a
stored string on which JSON parsing fails resolves to the default value
(the empty report list) without an exception; a JSON-parseable stored value
of the wrong shape is however returned as-is. -/
theorem c9_loadStoredValue_defaults (d : Json) :
    loadStoredValue none d = d
    ∧ loadStoredValue (some "") d = d
    ∧ ∀ s : String, jsonParse s = none → loadStoredValue (some s) d = d := by
  refine ⟨rfl, rfl, fun s h => ?_⟩
  simp [loadStoredValue, h]

/-- C9 (witness): applies the amended claim to the unparseable stored
string consisting of a lone opening brace. -/
theorem c9_loadStoredValue_defaults_witness :
    loadStoredValue (some "\x7b") (.arr []) = .arr [] :=
  (c9_loadStoredValue_defaults (.arr [])).2.2 "\x7b" rfl

/-- C10: every report id produced by `generateProductionReport` — on the
success and on the fallback path — is "report-" followed by the creation
millisecond; two reports created in the same millisecond receive equal ids;
and delete-by-id removes every entry whose id matches. -/
theorem c10_report_id_scheme :
    (∀ (rd : Except String Json) (o r u t : String) (now : Nat),
      (generateProductionReport rd o r u t now).id = "report-" ++ toString now)
    ∧ (∀ (rd1 rd2 : Except String Json) (o1 r1 u1 t1 o2 r2 u2 t2 : String) (now : Nat),
      (generateProductionReport rd1 o1 r1 u1 t1 now).id
        = (generateProductionReport rd2 o2 r2 u2 t2 now).id)
    ∧ ∀ (l : List ProductionReport) (i : String) (r : ProductionReport),
      r ∈ handleDeleteReport l i ↔ (r ∈ l ∧ r.id ≠ i) := by
  have hid : ∀ (rd : Except String Json) (o r u t : String) (now : Nat),
      (generateProductionReport rd o r u t now).id = "report-" ++ toString now := by
    intro rd o r u t now
    cases rd with
    | error e => rfl
    | ok j => cases j <;> rfl
  refine ⟨hid, ?_, ?_⟩
  · intro rd1 rd2 o1 r1 u1 t1 o2 r2 u2 t2 now
    rw [hid, hid]
  · intro l i r
    unfold handleDeleteReport
    rw [List.mem_filter]
    simp

/-- JSON tree produced by `JSON.stringify` for the repository block of a
report (field order is object-insertion order, per `analyzer.ts`). -/
def encodeRepositoryInfo (ri : RepositoryInfo) : Json :=
  .obj [("url", .str ri.url), ("owner", .str ri.owner), ("repo", .str ri.repo),
        ("analyzedAt", .str ri.analyzedAt)]

/-- JSON tree produced by `JSON.stringify` for a report. -/
def encodeReport (r : ProductionReport) : Json :=
  .obj [("id", .str r.id), ("repository", encodeRepositoryInfo r.repository),
        ("summary", r.summary), ("overallStatus", r.overallStatus),
        ("domains", r.domains), ("criticalIssues", r.criticalIssues),
        ("recommendations", r.recommendations), ("conclusion", r.conclusion),
        ("createdAt", r.createdAt |> .str)]

/-- Reads a repository block back from a parsed JSON tree. -/
def decodeRepositoryInfo (j : Json) : Option RepositoryInfo :=
  match j with
  | .obj fields =>
    match lookupField fields "url", lookupField fields "owner",
        lookupField fields "repo", lookupField fields "analyzedAt" with
    | some (.str url), some (.str owner), some (.str repo), some (.str t) =>
      some { url := url, owner := owner, repo := repo, analyzedAt := t }
    | _, _, _, _ => none
  | _ => none

/-- Reads a report back from a parsed JSON tree; `some` exactly when the
tree carries every report field (which `JSON.parse` of a stringified report
always does). -/
def decodeReport (j : Json) : Option ProductionReport :=
  match j with
  | .obj fields =>
    match lookupField fields "id", lookupField fields "repository",
        lookupField fields "summary", lookupField fields "overallStatus",
        lookupField fields "domains", lookupField fields "criticalIssues",
        lookupField fields "recommendations", lookupField fields "conclusion",
        lookupField fields "createdAt" with
    | some (.str id), some repoJ, some s, some os, some dm, some ci, some rc,
        some cl, some (.str ca) =>
      match decodeRepositoryInfo repoJ with
      | some ri =>
        some { id := id, repository := ri, summary := s, overallStatus := os,
               domains := dm, criticalIssues := ci, recommendations := rc,
               conclusion := cl, createdAt := ca }
      | none => none
    | _, _, _, _, _, _, _, _, _ => none
  | _ => none

/-- Reads a report list back from a parsed JSON tree. -/
def decodeReports (j : Json) : Option (List ProductionReport) :=
  match j with
  | .arr xs => xs.mapM decodeReport
  | _ => none

/-- Browser-local key-value store (`localStorage`).  A cell's contents are
modelled as the parsed JSON tree of the stored string: `JSON.parse` after
`JSON.stringify` reproduces the written JSON tree, which is the contract of
the builtins that `useKV` composes. -/
def kvSet (store : List (String × Json)) (k : String) (v : Json) :
    List (String × Json) :=
  (k, v) :: store.filter (fun p => p.1 != k)

/-- Persisting the report list in `useKV`:
`localStorage.setItem(key, JSON.stringify(newValue))`. -/
def saveReports (store : List (String × Json)) (k : String)
    (reports : List ProductionReport) : List (String × Json) :=
  kvSet store k (.arr (reports.map encodeReport))

/-- Reloading the report list: `JSON.parse(localStorage.getItem(key))` read
back as report objects. -/
def loadReports (store : List (String × Json)) (k : String) :
    Option (List ProductionReport) :=
  match lookupField store k with
  | some j => decodeReports j
  | none => none

lemma decodeReport_encodeReport (r : ProductionReport) :
    decodeReport (encodeReport r) = some r := rfl

lemma mapM_decodeReport_encodeReport (rs : List ProductionReport) :
    (rs.map encodeReport).mapM decodeReport = some rs := by
  induction rs with
  | nil => rfl
  | cons r rs ih =>
    rw [List.map_cons, List.mapM_cons, decodeReport_encodeReport, ih]
    rfl

/-- C7: saving a report list to the browser-local store and immediately
reloading it yields a deep-equal value — the stringify/parse round trip
through localStorage is the identity on report values. -/
theorem c7_store_roundtrip (store : List (String × Json)) (k : String)
    (reports : List ProductionReport) :
    lookupField (saveReports store k reports) k
        = some (.arr (reports.map encodeReport))
    ∧ loadReports (saveReports store k reports) k = some reports := by
  have hget : lookupField (saveReports store k reports) k
      = some (.arr (reports.map encodeReport)) := by
    simp [saveReports, kvSet, lookupField]
  refine ⟨hget, ?_⟩
  unfold loadReports
  rw [hget]
  exact mapM_decodeReport_encodeReport reports

mutual

/-- JS string coercion `String(v)` as performed by template interpolation:
arrays join their elements with commas (null elements render empty),
objects render as "[object Object]". -/
def jsToString : Json → String
  | .null => "null"
  | .bool b => cond b "true" "false"
  | .num lex => lex
  | .str s => s
  | .arr xs => jsToStringList xs
  | .obj _ => "[object Object]"

/-- Comma-joined element rendering of `Array.prototype.toString`. -/
def jsToStringList : List Json → String
  | [] => ""
  | [x] => jsToStringElem x
  | x :: xs => jsToStringElem x ++ "," ++ jsToStringList xs

/-- One array element under `Array.prototype.join`: null renders empty. -/
def jsToStringElem : Json → String
  | .null => ""
  | .bool b => cond b "true" "false"
  | .num lex => lex
  | .str s => s
  | .arr xs => jsToStringList xs
  | .obj _ => "[object Object]"

end

/-- Bullet-list rendering in `handleExport` (`App.tsx`):
`(value || []).map(x => `- $\x7bx\x7d`).join('\n')`.  Calling `.map` on a
truthy non-array value throws. -/
def renderBullets (v : Option Json) : Except String String :=
  match jsOr v (.arr []) with
  | .arr xs => .ok (String.intercalate "\n" (xs.map (fun f => "- " ++ jsToString f)))
  | _ => .error "TypeError: value.map is not a function"

/-- Findings block of one domain in `handleExport`:
`(domain.findings || []).map(f => `- $\x7bf\x7d`).join('\n')`. -/
def exportDomainFindings (domain : Json) : Except String String := do
  let f ← getField domain "findings"
  renderBullets f

/-- Recommendations block of one domain in `handleExport`:
`(domain.recommendations || []).map(r => `- $\x7br\x7d`).join('\n')`. -/
def exportDomainRecommendations (domain : Json) : Except String String := do
  let r ← getField domain "recommendations"
  renderBullets r

/-- C6: display-side normalization of a malformed-but-parseable report.
When the optional arrays are absent, report construction stores empty
arrays for domains, criticalIssues and recommendations; the per-domain
findings and recommendations blocks of the export render as the empty
bullet list without throwing; and a report payload on which every property
access throws (JSON null) still normalizes — to the canonical fallback
report — rather than raising. -/
theorem c6_normalization_defaults (o r u t : String) (now : Nat) :
    (∀ fields : List (String × Json),
      lookupField fields "domains" = none →
      lookupField fields "criticalIssues" = none →
      lookupField fields "recommendations" = none →
      (generateProductionReport (.ok (.obj fields)) o r u t now).domains = .arr []
      ∧ (generateProductionReport (.ok (.obj fields)) o r u t now).criticalIssues = .arr []
      ∧ (generateProductionReport (.ok (.obj fields)) o r u t now).recommendations = .arr [])
    ∧ (∀ domain : Json, getField domain "findings" = .ok none →
        exportDomainFindings domain = .ok "")
    ∧ (∀ domain : Json, getField domain "recommendations" = .ok none →
        exportDomainRecommendations domain = .ok "")
    ∧ generateProductionReport (.ok .null) o r u t now = fallbackReport o r u t now := by
  refine ⟨?_, ?_, ?_, rfl⟩
  · intro fields hdm hci hrc
    rw [generateProductionReport_ok_obj]
    refine ⟨?_, ?_, ?_⟩ <;> simp [hdm, hci, hrc, jsOr]
  · intro domain h
    simp only [exportDomainFindings, h]
    rfl
  · intro domain h
    simp only [exportDomainRecommendations, h]
    rfl

/-- C6 (witness): instantiates the normalization claim at an empty report
object and an empty domain object. -/
theorem c6_normalization_defaults_witness :
    (generateProductionReport (.ok (.obj [("summary", .str "s")])) "o" "r" "u" "t" 3).domains
        = .arr []
    ∧ exportDomainFindings (.obj [("title", .str "Security")]) = .ok "" :=
  ⟨((c6_normalization_defaults "o" "r" "u" "t" 3).1 [("summary", .str "s")] rfl rfl rfl).1,
   (c6_normalization_defaults "o" "r" "u" "t" 3).2.1 (.obj [("title", .str "Security")]) rfl⟩
/-- Static text of the part_000 prompt template, reproduced verbatim from
the source file (including its double-encoded Arabic text), as a function
of the seven interpolated strings. -/
def analysisPromptTemplate (ownerS repoS langsS pkgS dockerS testsS ciS : String) : String :=
  "Ø£Ù†Øª Ø®Ø¨ÙŠØ± ÙÙŠ ØªÙ‚ÙŠÙŠÙ… Ø¬Ø§Ù‡Ø²ÙŠØ© Ø§Ù„ØªØ·Ø¨ÙŠÙ‚Ø§Øª Ù„Ù„Ø¥Ù†ØªØ§Ø¬. Ø³ØªÙ‚ÙˆÙ… Ø¨ÙƒØªØ§Ø¨Ø© ØªÙ‚Ø±ÙŠØ± Ø¬Ø§Ù‡Ø²ÙŠØ© Ø§Ù„Ø¥Ù†ØªØ§Ø¬ (ØªÙ‚Ø±ÙŠØ± Ø¬Ø§Ù‡Ø²ÙŠØ© Ø§Ù„Ø¥Ù†ØªØ§Ø¬) Ù„ØªØ·Ø¨ÙŠÙ‚ ÙˆÙŠØ¨ ØªÙØ§Ø¹Ù„ÙŠ. Ù‡Ø°Ø§ Ø§Ù„ØªÙ‚Ø±ÙŠØ± ÙŠØ¬Ø¨ Ø£Ù† ÙŠÙƒÙˆÙ† Ù…ÙƒØªÙˆØ¨Ø§Ù‹ Ø¨Ø§Ù„ÙƒØ§Ù…Ù„ Ø¨Ø§Ù„Ù„ØºØ© Ø§Ù„Ø¹Ø±Ø¨ÙŠØ© ÙˆÙŠØ¬Ø¨ Ø£Ù† ÙŠÙ‚ÙŠÙ‘Ù… Ù…Ø§ Ø¥Ø°Ø§ ÙƒØ§Ù† Ø§Ù„ØªØ·Ø¨ÙŠÙ‚ Ø¬Ø§Ù‡Ø²Ø§Ù‹ Ù„Ù„Ù†Ø´Ø± ÙÙŠ Ø¨ÙŠØ¦Ø© Ø¥Ù†ØªØ§Ø¬ÙŠØ©.\n\nÙ…Ø¹Ù„ÙˆÙ…Ø§Øª Ø§Ù„ØªØ·Ø¨ÙŠÙ‚:\n- Ø§Ù„Ù…Ø§Ù„Ùƒ: "
    ++ ownerS
    ++ "\n- Ø§Ø³Ù… Ø§Ù„Ù…Ø³ØªÙˆØ¯Ø¹: "
    ++ repoS
    ++ "\n- Ø§Ù„Ù„ØºØ§Øª: "
    ++ langsS
    ++ "\n- ÙŠØ­ØªÙˆÙŠ Ø¹Ù„Ù‰ package.json: "
    ++ pkgS
    ++ "\n- ÙŠØ­ØªÙˆÙŠ Ø¹Ù„Ù‰ Dockerfile: "
    ++ dockerS
    ++ "\n- ÙŠØ­ØªÙˆÙŠ Ø¹Ù„Ù‰ Ø§Ø®ØªØ¨Ø§Ø±Ø§Øª: "
    ++ testsS
    ++ "\n- ÙŠØ­ØªÙˆÙŠ Ø¹Ù„Ù‰ CI/CD: "
    ++ ciS
    ++ "\n\nÙ‚Ù… Ø¨Ø¥Ù†Ø´Ø§Ø¡ ØªÙ‚Ø±ÙŠØ± JSON Ø¨Ø§Ù„Ù‡ÙŠÙƒÙ„ Ø§Ù„ØªØ§Ù„ÙŠ ÙÙ‚Ø·:\n\x7b\n  \"summary\": \"Ù†Øµ\",\n  \"overallStatus\": \"ready|conditional|not-ready\",\n  \"domains\": [ ... ],\n  \"criticalIssues\": [ ... ],\n  \"recommendations\": [ ... ],\n  \"conclusion\": \"Ù†Øµ\"\n\x7d\n"

/-- Placeholder rendered for an absent or empty language list in the
part_000 template (the file's own spelling). -/
def notSpecifiedPlaceholder : String := "ØºÙŠØ± Ù…Ø­Ø¯Ø¯Ø©"

/-- The yes label of the part_000 template ternaries. -/
def yesLabel : String := "Ù†Ø¹Ù…"

/-- The no label of the part_000 template ternaries. -/
def noLabel : String := "Ù„Ø§"

/-- Labels of the part_001 template ternaries (masculine form). -/
def presentLabelV1 : String := "✓ موجود"

/-- Absent label of the part_001 template ternaries (masculine form). -/
def absentLabelV1 : String := "✗ غير موجود"

/-- Present label of the part_001 hasTests ternary (feminine form). -/
def presentLabelFemV1 : String := "✓ موجودة"

/-- Absent label of the part_001 hasTests ternary (feminine form). -/
def absentLabelFemV1 : String := "✗ غير موجودة"

/-- Placeholder for an empty language list in the part_001 template. -/
def notSpecifiedPlaceholderV1 : String := "غير محددة"

/-- Inner template of the part_001 packageJsonContent conditional block. -/
def analysisPromptV1PkgBlock (contentS : String) : String :=
  "\n\u2500\u2500\u2500\u2500\u2500\u2500\u2500\u2500\u2500\u2500\u2500\u2500\u2500\u2500\u2500\u2500\u2500\u2500\u2500\u2500\u2500\u2500\u2500\u2500\u2500\u2500\u2500\u2500\u2500\u2500\u2500\u2500\u2500\u2500\u2500\u2500\u2500\u2500\u2500\u2500\u2500\u2500\u2500\u2500\u2500\u2500\u2500\u2500\u2500\u2500\u2500\u2500\u2500\u2500\u2500\u2500\u2500\u2500\u2500\u2500\u2500\u2500\u2500\u2500\u2500\u2500\u2500\u2500\u2500\u2500\u2500\u2500\u2500\u2500\u2500\u2500\u2500\u2500\u2500\u2500\n📦 محتوى package.json\n\u2500\u2500\u2500\u2500\u2500\u2500\u2500\u2500\u2500\u2500\u2500\u2500\u2500\u2500\u2500\u2500\u2500\u2500\u2500\u2500\u2500\u2500\u2500\u2500\u2500\u2500\u2500\u2500\u2500\u2500\u2500\u2500\u2500\u2500\u2500\u2500\u2500\u2500\u2500\u2500\u2500\u2500\u2500\u2500\u2500\u2500\u2500\u2500\u2500\u2500\u2500\u2500\u2500\u2500\u2500\u2500\u2500\u2500\u2500\u2500\u2500\u2500\u2500\u2500\u2500\u2500\u2500\u2500\u2500\u2500\u2500\u2500\u2500\u2500\u2500\u2500\u2500\u2500\u2500\u2500\n"
    ++ contentS
    ++ "\n"

/-- Inner template of the part_001 readmeContent conditional block. -/
def analysisPromptV1ReadmeBlock (contentS : String) : String :=
  "\n\u2500\u2500\u2500\u2500\u2500\u2500\u2500\u2500\u2500\u2500\u2500\u2500\u2500\u2500\u2500\u2500\u2500\u2500\u2500\u2500\u2500\u2500\u2500\u2500\u2500\u2500\u2500\u2500\u2500\u2500\u2500\u2500\u2500\u2500\u2500\u2500\u2500\u2500\u2500\u2500\u2500\u2500\u2500\u2500\u2500\u2500\u2500\u2500\u2500\u2500\u2500\u2500\u2500\u2500\u2500\u2500\u2500\u2500\u2500\u2500\u2500\u2500\u2500\u2500\u2500\u2500\u2500\u2500\u2500\u2500\u2500\u2500\u2500\u2500\u2500\u2500\u2500\u2500\u2500\u2500\n📄 محتوى README\n\u2500\u2500\u2500\u2500\u2500\u2500\u2500\u2500\u2500\u2500\u2500\u2500\u2500\u2500\u2500\u2500\u2500\u2500\u2500\u2500\u2500\u2500\u2500\u2500\u2500\u2500\u2500\u2500\u2500\u2500\u2500\u2500\u2500\u2500\u2500\u2500\u2500\u2500\u2500\u2500\u2500\u2500\u2500\u2500\u2500\u2500\u2500\u2500\u2500\u2500\u2500\u2500\u2500\u2500\u2500\u2500\u2500\u2500\u2500\u2500\u2500\u2500\u2500\u2500\u2500\u2500\u2500\u2500\u2500\u2500\u2500\u2500\u2500\u2500\u2500\u2500\u2500\u2500\u2500\u2500\n"
    ++ contentS
    ++ "\n"

/-- Inner template of the part_001 requirementsContent conditional block. -/
def analysisPromptV1ReqBlock (contentS : String) : String :=
  "\n\u2500\u2500\u2500\u2500\u2500\u2500\u2500\u2500\u2500\u2500\u2500\u2500\u2500\u2500\u2500\u2500\u2500\u2500\u2500\u2500\u2500\u2500\u2500\u2500\u2500\u2500\u2500\u2500\u2500\u2500\u2500\u2500\u2500\u2500\u2500\u2500\u2500\u2500\u2500\u2500\u2500\u2500\u2500\u2500\u2500\u2500\u2500\u2500\u2500\u2500\u2500\u2500\u2500\u2500\u2500\u2500\u2500\u2500\u2500\u2500\u2500\u2500\u2500\u2500\u2500\u2500\u2500\u2500\u2500\u2500\u2500\u2500\u2500\u2500\u2500\u2500\u2500\u2500\u2500\u2500\n📋 محتوى requirements.txt\n\u2500\u2500\u2500\u2500\u2500\u2500\u2500\u2500\u2500\u2500\u2500\u2500\u2500\u2500\u2500\u2500\u2500\u2500\u2500\u2500\u2500\u2500\u2500\u2500\u2500\u2500\u2500\u2500\u2500\u2500\u2500\u2500\u2500\u2500\u2500\u2500\u2500\u2500\u2500\u2500\u2500\u2500\u2500\u2500\u2500\u2500\u2500\u2500\u2500\u2500\u2500\u2500\u2500\u2500\u2500\u2500\u2500\u2500\u2500\u2500\u2500\u2500\u2500\u2500\u2500\u2500\u2500\u2500\u2500\u2500\u2500\u2500\u2500\u2500\u2500\u2500\u2500\u2500\u2500\u2500\n"
    ++ contentS
    ++ "\n"

/-- Static text of the part_001 prompt template, reproduced verbatim, as a
function of the interpolated strings (owner and repo appear twice). -/
def analysisPromptV1Template (ownerS repoS langsS f1 f2 f3 f4 f5 f6 f7 f8 filesS pkgBlockS readmeBlockS reqBlockS : String) : String :=
  "أنت خبير هندسي متخصص في تقييم جاهزية التطبيقات للنشر في بيئات الإنتاج. مهمتك هي إجراء مراجعة هندسية شاملة وكتابة تقرير جاهزية إنتاج (Production Readiness Report) احترافي لتطبيق ويب تفاعلي.\n\n\u2550\u2550\u2550\u2550\u2550\u2550\u2550\u2550\u2550\u2550\u2550\u2550\u2550\u2550\u2550\u2550\u2550\u2550\u2550\u2550\u2550\u2550\u2550\u2550\u2550\u2550\u2550\u2550\u2550\u2550\u2550\u2550\u2550\u2550\u2550\u2550\u2550\u2550\u2550\u2550\u2550\u2550\u2550\u2550\u2550\u2550\u2550\u2550\u2550\u2550\u2550\u2550\u2550\u2550\u2550\u2550\u2550\u2550\u2550\u2550\u2550\u2550\u2550\u2550\u2550\u2550\u2550\u2550\u2550\u2550\u2550\u2550\u2550\u2550\u2550\u2550\u2550\u2550\u2550\u2550\n📋 المعلومات المتوفرة عن التطبيق\n\u2550\u2550\u2550\u2550\u2550\u2550\u2550\u2550\u2550\u2550\u2550\u2550\u2550\u2550\u2550\u2550\u2550\u2550\u2550\u2550\u2550\u2550\u2550\u2550\u2550\u2550\u2550\u2550\u2550\u2550\u2550\u2550\u2550\u2550\u2550\u2550\u2550\u2550\u2550\u2550\u2550\u2550\u2550\u2550\u2550\u2550\u2550\u2550\u2550\u2550\u2550\u2550\u2550\u2550\u2550\u2550\u2550\u2550\u2550\u2550\u2550\u2550\u2550\u2550\u2550\u2550\u2550\u2550\u2550\u2550\u2550\u2550\u2550\u2550\u2550\u2550\u2550\u2550\u2550\u2550\n\nمعلومات المستودع:\n- المالك: "
    ++ ownerS
    ++ "\n- اسم المستودع: "
    ++ repoS
    ++ "\n- اللغات البرمجية: "
    ++ langsS
    ++ "\n\nالبنية التقنية:\n- package.json: "
    ++ f1
    ++ "\n- requirements.txt: "
    ++ f2
    ++ "\n- pyproject.toml: "
    ++ f3
    ++ "\n- Dockerfile: "
    ++ f4
    ++ "\n\nضمان الجودة:\n- اختبارات آلية: "
    ++ f5
    ++ "\n- CI/CD Pipeline: "
    ++ f6
    ++ "\n\nالتوثيق:\n- README: "
    ++ f7
    ++ "\n- .gitignore: "
    ++ f8
    ++ "\n\nهيكل الملفات:\n"
    ++ filesS
    ++ "\n\n"
    ++ pkgBlockS
    ++ "\n\n"
    ++ readmeBlockS
    ++ "\n\n"
    ++ reqBlockS
    ++ "\n\n\u2550\u2550\u2550\u2550\u2550\u2550\u2550\u2550\u2550\u2550\u2550\u2550\u2550\u2550\u2550\u2550\u2550\u2550\u2550\u2550\u2550\u2550\u2550\u2550\u2550\u2550\u2550\u2550\u2550\u2550\u2550\u2550\u2550\u2550\u2550\u2550\u2550\u2550\u2550\u2550\u2550\u2550\u2550\u2550\u2550\u2550\u2550\u2550\u2550\u2550\u2550\u2550\u2550\u2550\u2550\u2550\u2550\u2550\u2550\u2550\u2550\u2550\u2550\u2550\u2550\u2550\u2550\u2550\u2550\u2550\u2550\u2550\u2550\u2550\u2550\u2550\u2550\u2550\u2550\u2550\n🎯 المجالات الهندسية للتقييم\n\u2550\u2550\u2550\u2550\u2550\u2550\u2550\u2550\u2550\u2550\u2550\u2550\u2550\u2550\u2550\u2550\u2550\u2550\u2550\u2550\u2550\u2550\u2550\u2550\u2550\u2550\u2550\u2550\u2550\u2550\u2550\u2550\u2550\u2550\u2550\u2550\u2550\u2550\u2550\u2550\u2550\u2550\u2550\u2550\u2550\u2550\u2550\u2550\u2550\u2550\u2550\u2550\u2550\u2550\u2550\u2550\u2550\u2550\u2550\u2550\u2550\u2550\u2550\u2550\u2550\u2550\u2550\u2550\u2550\u2550\u2550\u2550\u2550\u2550\u2550\u2550\u2550\u2550\u2550\u2550\n\nقم بتقييم التطبيق عبر المجالات الهندسية العشرة التالية:\n\n1️⃣ **الوظائف الأساسية (Core Functionality)**\n   معايير التقييم:\n   • اكتمال الميزات الأساسية المطلوبة\n   • استقرار الوظائف وخلوها من الأخطاء الحرجة\n   • تغطية حالات الاستخدام الرئيسية\n   • معالجة الأخطاء والحالات الاستثنائية\n\n2️⃣ **الأداء (Performance)**\n   معايير التقييم:\n   • زمن تحميل الصفحة الأولى (< 3 ثواني)\n   • زمن الاستجابة للعمليات (< 200ms)\n   • كفاءة استخدام الموارد (Memory/CPU)\n   • قابلية التوسع الأفقي والعمودي\n   • تحسين الصور والأصول الثابتة\n   • استراتيجيات التخزين المؤقت (Caching)\n\n3️⃣ **الأمان (Security)**\n   معايير التقييم:\n   • آليات المصادقة والتفويض (Authentication/Authorization)\n   • حماية من الثغرات الشائعة (OWASP Top 10)\n   • تشفير البيانات الحساسة (في الحركة وفي الراحة)\n   • إدارة الأسرار والمفاتيح (Secrets Management)\n   • حماية من CSRF, XSS, SQL Injection\n   • سياسات CORS و Content Security Policy\n   • تحديثات أمنية للمكتبات والاعتماديات\n\n4️⃣ **البنية التحتية (Infrastructure)**\n   معايير التقييم:\n   • توفر بيئات متعددة (Dev/Staging/Production)\n   • آليات النشر الآلي (Deployment Automation)\n   • إدارة الإعدادات البيئية (Environment Configuration)\n   • استراتيجيات التوسع (Scaling Strategy)\n   • التوافرية العالية (High Availability)\n   • استراتيجية النسخ الاحتياطي التلقائي\n\n5️⃣ **المراقبة والسجلات (Monitoring & Logging)**\n   معايير التقييم:\n   • نظام تسجيل الأحداث الشامل (Structured Logging)\n   • مراقبة الأداء والموارد (APM)\n   • تنبيهات الأخطاء والمشاكل الحرجة (Alerting)\n   • تتبع الأخطاء (Error Tracking)\n   • لوحات القياس والمقاييس (Metrics Dashboard)\n\n6️⃣ **النسخ الاحتياطي والاستعادة (Backup & Recovery)**\n   معايير التقييم:\n   • استراتيجية النسخ الاحتياطي الآلي\n   • نقطة استعادة الهدف (RPO - Recovery Point Objective)\n   • وقت استعادة الهدف (RTO - Recovery Time Objective)\n   • خطة التعافي من الكوارث (Disaster Recovery Plan)\n   • اختبار دوري لعمليات الاستعادة\n\n7️⃣ **التوثيق (Documentation)**\n   معايير التقييم:\n   • README شامل يوضح الغرض والاستخدام\n   • توثيق التثبيت والإعداد\n   • توثيق API (إن وجد)\n   • توثيق البنية المعمارية\n   • توثيق العمليات التشغيلية (Runbooks)\n   • دليل المساهمة (Contributing Guide)\n\n8️⃣ **الاختبار (Testing)**\n   معايير التقييم:\n   • اختبارات الوحدة (Unit Tests) - تغطية > 70%\n   • اختبارات التكامل (Integration Tests)\n   • اختبارات من النهاية للنهاية (E2E Tests)\n   • اختبارات الأداء والحمل (Load/Stress Tests)\n   • اختبارات الأمان (Security Tests)\n   • اختبارات قبول المستخدم (UAT)\n\n9️⃣ **التوافق (Compatibility)**\n   معايير التقييم:\n   • دعم المتصفحات الرئيسية (Chrome, Firefox, Safari, Edge)\n   • التوافق مع الأجهزة المختلفة (Desktop, Mobile, Tablet)\n   • التصميم المتجاوب (Responsive Design)\n   • إمكانية الوصول (Accessibility - WCAG 2.1)\n   • دعم اللغات المتعددة (إن كان مطلوباً)\n\n🔟 **الامتثال (Compliance)**\n   معايير التقييم:\n   • الامتثال لـ GDPR (إن كان التطبيق يخدم الاتحاد الأوروبي)\n   • سياسات الخصوصية وشروط الاستخدام\n   • الامتثال للمعايير الصناعية (ISO, SOC 2, إلخ)\n   • متطلبات الترخيص (License Compliance)\n   • لوائح حماية البيانات المحلية\n\n\u2550\u2550\u2550\u2550\u2550\u2550\u2550\u2550\u2550\u2550\u2550\u2550\u2550\u2550\u2550\u2550\u2550\u2550\u2550\u2550\u2550\u2550\u2550\u2550\u2550\u2550\u2550\u2550\u2550\u2550\u2550\u2550\u2550\u2550\u2550\u2550\u2550\u2550\u2550\u2550\u2550\u2550\u2550\u2550\u2550\u2550\u2550\u2550\u2550\u2550\u2550\u2550\u2550\u2550\u2550\u2550\u2550\u2550\u2550\u2550\u2550\u2550\u2550\u2550\u2550\u2550\u2550\u2550\u2550\u2550\u2550\u2550\u2550\u2550\u2550\u2550\u2550\u2550\u2550\u2550\n📊 منهجية التقييم\n\u2550\u2550\u2550\u2550\u2550\u2550\u2550\u2550\u2550\u2550\u2550\u2550\u2550\u2550\u2550\u2550\u2550\u2550\u2550\u2550\u2550\u2550\u2550\u2550\u2550\u2550\u2550\u2550\u2550\u2550\u2550\u2550\u2550\u2550\u2550\u2550\u2550\u2550\u2550\u2550\u2550\u2550\u2550\u2550\u2550\u2550\u2550\u2550\u2550\u2550\u2550\u2550\u2550\u2550\u2550\u2550\u2550\u2550\u2550\u2550\u2550\u2550\u2550\u2550\u2550\u2550\u2550\u2550\u2550\u2550\u2550\u2550\u2550\u2550\u2550\u2550\u2550\u2550\u2550\u2550\n\nنظام التقييم لكل مجال:\n- **ready** (جاهز): المجال يلبي جميع المعايير الأساسية ومُجهّز للإنتاج\n- **conditional** (جاهز بشروط): المجال يحتاج تحسينات طفيفة أو متوسطة، لكن ليست حرجة\n- **not-ready** (غير جاهز): المجال يعاني من نقص حرج يمنع النشر\n- **unknown** (غير محدد): معلومات غير كافية للتقييم\n\nنظام الأولويات للتوصيات:\n- **P0 (حرج)**: يجب معالجته قبل النشر - يمنع النشر\n- **P1 (عالي)**: يجب معالجته في أقرب وقت - يؤثر على الاستقرار أو الأمان\n- **P2 (متوسط)**: يُنصح بمعالجته قريباً - يحسن الجودة\n- **P3 (منخفض)**: يمكن معالجته لاحقاً - تحسينات اختيارية\n\n\u2550\u2550\u2550\u2550\u2550\u2550\u2550\u2550\u2550\u2550\u2550\u2550\u2550\u2550\u2550\u2550\u2550\u2550\u2550\u2550\u2550\u2550\u2550\u2550\u2550\u2550\u2550\u2550\u2550\u2550\u2550\u2550\u2550\u2550\u2550\u2550\u2550\u2550\u2550\u2550\u2550\u2550\u2550\u2550\u2550\u2550\u2550\u2550\u2550\u2550\u2550\u2550\u2550\u2550\u2550\u2550\u2550\u2550\u2550\u2550\u2550\u2550\u2550\u2550\u2550\u2550\u2550\u2550\u2550\u2550\u2550\u2550\u2550\u2550\u2550\u2550\u2550\u2550\u2550\u2550\n✍️ إرشادات كتابة التقرير\n\u2550\u2550\u2550\u2550\u2550\u2550\u2550\u2550\u2550\u2550\u2550\u2550\u2550\u2550\u2550\u2550\u2550\u2550\u2550\u2550\u2550\u2550\u2550\u2550\u2550\u2550\u2550\u2550\u2550\u2550\u2550\u2550\u2550\u2550\u2550\u2550\u2550\u2550\u2550\u2550\u2550\u2550\u2550\u2550\u2550\u2550\u2550\u2550\u2550\u2550\u2550\u2550\u2550\u2550\u2550\u2550\u2550\u2550\u2550\u2550\u2550\u2550\u2550\u2550\u2550\u2550\u2550\u2550\u2550\u2550\u2550\u2550\u2550\u2550\u2550\u2550\u2550\u2550\u2550\u2550\n\n1. **التحليل الأولي**:\n   - قبل كتابة التقرير، حلل المعلومات المتوفرة بعمق\n   - حدد الأنماط والعلاقات بين المجالات المختلفة\n   - ابحث عن الفجوات المعلوماتية الحرجة\n   - استنتج معلومات ضمنية من البيانات المتاحة\n\n2. **الدقة والموضوعية**:\n   - قدم تقييماً موضوعياً مبنياً على الأدلة\n   - اذكر أي افتراضات قمت بها بوضوح\n   - لا تقدم تقييمات مبنية على تخمينات إذا كانت البيانات غير كافية\n   - استخدم \"unknown\" عندما لا تتوفر معلومات كافية\n\n3. **القابلية للتنفيذ**:\n   - اجعل كل توصية محددة وقابلة للتنفيذ\n   - أضف الأولوية لكل توصية\n   - اقترح خطوات عملية واضحة\n\n4. **الشمولية**:\n   - غطِ جميع المجالات العشرة حتى لو كانت المعلومات محدودة\n   - اربط المجالات ببعضها عند الحاجة\n   - حدد التأثيرات المتداخلة بين المجالات\n\n\u2550\u2550\u2550\u2550\u2550\u2550\u2550\u2550\u2550\u2550\u2550\u2550\u2550\u2550\u2550\u2550\u2550\u2550\u2550\u2550\u2550\u2550\u2550\u2550\u2550\u2550\u2550\u2550\u2550\u2550\u2550\u2550\u2550\u2550\u2550\u2550\u2550\u2550\u2550\u2550\u2550\u2550\u2550\u2550\u2550\u2550\u2550\u2550\u2550\u2550\u2550\u2550\u2550\u2550\u2550\u2550\u2550\u2550\u2550\u2550\u2550\u2550\u2550\u2550\u2550\u2550\u2550\u2550\u2550\u2550\u2550\u2550\u2550\u2550\u2550\u2550\u2550\u2550\u2550\u2550\n📤 هيكل الرد المطلوب (JSON)\n\u2550\u2550\u2550\u2550\u2550\u2550\u2550\u2550\u2550\u2550\u2550\u2550\u2550\u2550\u2550\u2550\u2550\u2550\u2550\u2550\u2550\u2550\u2550\u2550\u2550\u2550\u2550\u2550\u2550\u2550\u2550\u2550\u2550\u2550\u2550\u2550\u2550\u2550\u2550\u2550\u2550\u2550\u2550\u2550\u2550\u2550\u2550\u2550\u2550\u2550\u2550\u2550\u2550\u2550\u2550\u2550\u2550\u2550\u2550\u2550\u2550\u2550\u2550\u2550\u2550\u2550\u2550\u2550\u2550\u2550\u2550\u2550\u2550\u2550\u2550\u2550\u2550\u2550\u2550\u2550\n\nيجب أن يكون الرد بصيغة JSON التالية بالضبط (كل النصوص بالعربية):\n\n\x7b\n  \"metadata\": \x7b\n    \"reportDate\": \"التاريخ الحالي\",\n    \"repository\": \""
    ++ ownerS
    ++ "/"
    ++ repoS
    ++ "\",\n    \"primaryLanguages\": [\"اللغة الأساسية 1\", \"اللغة الأساسية 2\"]\n  \x7d,\n  \"summary\": \"نظرة عامة شاملة عن التطبيق وغرض التقرير والنتائج الرئيسية (3-5 جمل)\",\n  \"overallStatus\": \"ready أو conditional أو not-ready\",\n  \"overallScore\": \"النسبة المئوية للجاهزية الإجمالية (0-100)\",\n  \"readinessLevel\": \"وصف نصي لمستوى الجاهزية (مثال: 'جاهز للإنتاج بعد معالجة 3 نقاط حرجة')\",\n  \n  \"domains\": [\n    \x7b\n      \"id\": 1,\n      \"title\": \"الوظائف الأساسية\",\n      \"status\": \"ready أو conditional أو not-ready أو unknown\",\n      \"score\": \"النسبة المئوية للجاهزية في هذا المجال (0-100)\",\n      \"description\": \"تقييم شامل للحالة مع ذكر السياق الهندسي (2-3 جمل)\",\n      \"strengths\": [\"نقطة قوة 1\", \"نقطة قوة 2\"],\n      \"weaknesses\": [\"نقطة ضعف 1\", \"نقطة ضعف 2\"],\n      \"findings\": [\n        \"ملاحظة محددة مع دليل 1\",\n        \"ملاحظة محددة مع دليل 2\",\n        \"ملاحظة محددة مع دليل 3\"\n      ],\n      \"recommendations\": [\n        \x7b\n          \"priority\": \"P0 أو P1 أو P2 أو P3\",\n          \"action\": \"التوصية المحددة\",\n          \"rationale\": \"السبب والتأثير المتوقع\"\n        \x7d\n      ],\n      \"missingInfo\": [\"معلومة مفقودة 1 مطلوبة للتقييم الكامل\", \"معلومة مفقودة 2\"]\n    \x7d\n    // كرر لجميع المجالات العشرة بنفس الترتيب\n  ],\n  \n  \"criticalIssues\": [\n    \x7b\n      \"domain\": \"اسم المجال\",\n      \"issue\": \"وصف المشكلة الحرجة\",\n      \"impact\": \"التأثير على الإنتاج\",\n      \"priority\": \"P0\"\n    \x7d\n  ],\n  \n  \"recommendations\": \x7b\n    \"immediate\": [\"إجراء فوري 1 (P0)\", \"إجراء فوري 2 (P0)\"],\n    \"shortTerm\": [\"إجراء قصير المدى 1 (P1)\", \"إجراء قصير المدى 2 (P1)\"],\n    \"mediumTerm\": [\"إجراء متوسط المدى 1 (P2)\", \"إجراء متوسط المدى 2 (P2)\"],\n    \"longTerm\": [\"إجراء طويل المدى 1 (P3)\", \"إجراء طويل المدى 2 (P3)\"]\n\n  \"conclusion\":\"الخلاصة النهائية: تقييم الجاهزية الإجمالي مع توصية واضحة وحاسمة (جاهز للإنتاج / جاهز بشروط / غير جاهز) مع تبرير هندسي مفصل يستند إلى التحليل الشامل. يجب أن يتضمن: (1) ملخص الوضع الحالي (2) الخطوات الحرجة المطلوبة (3) الإطار الزمني المقترح (4) المخاطر المحتملة (5) التوصية النهائية الوا\u2550\u2550\u2550\u2550\u2550\u2550\u2550\u2550\u2550\u2550\u2550\u2550\u2550\u2550\u2550\u2550\u2550\u2550\u2550\u2550\u2550\u2550\u2550\u2550\u2550\u2550\u2550\u2550\u2550\u2550\u2550\u2550\u2550\u2550\u2550\u2550\u2550\u2550\u2550\u2550\u2550\u2550\u2550\u2550\u2550\u2550\u2550\u2550\u2550\u2550\u2550\u2550\u2550\u2550\u2550\u2550\u2550\u2550\u2550\u2550\u2550\u2550\u2550\u2550\u2550\u2550\u2550\u2550\u2550\u2550\u2550\u2550\u2550\u2550\u2550\u2550 تعليمات حاسمة\n\u2550\u2550\u2550\u2550\u2550\u2550\u2550\u2550\u2550\u2550\u2550\u2550\u2550\u2550\u2550\u2550\u2550\u2550\u2550\u2550\u2550\u2550\u2550\u2550\u2550\u2550\u2550\u2550\u2550\u2550\u2550\u2550\u2550\u2550\u2550\u2550\u2550\u2550\u2550\u2550\u2550\u2550\u2550\u2550\u2550\u2550\u2550\u2550\u2550\u2550\u2550\u2550\u2550\u2550\u2550\u2550\u2550\u2550\u2550\u2550\u2550\u2550\u2550\u2550\u2550\u2550\u2550\u2550\u2550\u2550\u2550\u2550\u2550\u2550\u2550\u2550\u2550\u2550\u2550\u2550\n\n1. يجب تضمين جميع المجالات العشرة في domains بنفس الترتيب المذكور\n2. جميع النصوص يجب أن تكون باللغة العربية الفصحى الاحترافية\n3. لا تستخدم رموز تعبيرية (emojis) في محتوى JSON\n4. كن محدداً في التوصيات - تجنب العموميات\n5. أضف priority لكل توصية\n6. إذا كانت المعلومات غير كافية، استخدم \"unknown\" واذكر ذلك في missingInfo\n7. اربط التوصيات بالأدلة المستخرجة من تحليل المستودع\n8. احسب score بناءً على المعايير المستوفاة من إجمالي المعايير لكل مجال\n\nابدأ التحليل الآن وقدم تقريراً هندسياً شاملاً واحترافياً"
/-- Static text of the embedded-server prompt (`createSafePrompt` in the
PRIVACY.md server variant), verbatim, as a function of the three
interpolations. -/
def safePromptTemplate (ownerS repoS dataS : String) : String :=
  "Analyze the repository "
    ++ ownerS
    ++ "/"
    ++ repoS
    ++ " for production readiness.\n\nRepository Data Summary:\n"
    ++ dataS
    ++ "\n\nRespond with strictly valid JSON using this structure:\n\x7b\n  \"summary\": \"ملخص عام\",\n  \"overallStatus\": \"ready|conditional|not-ready\",\n  \"domains\": [\n    \x7b\n      \"title\": \"Security\",\n      \"status\": \"ready|conditional|not-ready\",\n      \"description\": \"شرح تفصيلي\",\n      \"findings\": [\"مشكلة 1\", \"مشكلة 2\"],\n      \"recommendations\": [\"حل 1\", \"حل 2\"]\n    \x7d\n  ],\n  \"criticalIssues\": [\"مشكلة حرجة 1\"],\n  \"recommendations\": [\"توصية عامة\"],\n  \"conclusion\": \"الخلاصة\"\n\x7d\nResponse MUST be in Arabic. Include at least 5 domains: Security, Performance, Documentation, Testing, Infrastructure."

/-- Arabic error banner of the part_000 analyze handler catch branch,
verbatim from the file (double-encoded as in the source). -/
def analyzeErrorArabic : String := "ÙØ´Ù„ ÙÙŠ ØªØ­Ù„ÙŠÙ„ Ø§Ù„Ù…Ø³ØªÙˆØ¯Ø¹. Ø­Ø¯Ø« Ø®Ø·Ø£ Ø¯Ø§Ø®Ù„ÙŠ."
/-- `Array.prototype.join(sep)`: throws on non-array receivers; elements
are coerced as in `jsToStringElem` (null renders empty). -/
def joinJs (v : Json) (sep : String) : Except String String :=
  match v with
  | .arr xs => .ok (String.intercalate sep (xs.map jsToStringElem))
  | _ => .error "TypeError: join is not a function"

/-- Join on a possibly-absent receiver: `undefined.join` throws. -/
def joinJsOpt (v : Option Json) (sep : String) : Except String String :=
  match v with
  | none => .error "TypeError: Cannot read properties of undefined (reading 'join')"
  | some j => joinJs j sep

/-- `buildAnalysisPrompt` of the part_000 proxy server.  The body reads only
`data = analysisData || \x7b\x7d`, so an absent `analysisData` is harmless;
the only throwing step is `.join` on a truthy non-array `languages`. -/
def buildAnalysisPrompt (owner repo : Json) (analysisData : Option Json) :
    Except String String := do
  let data := jsOr analysisData (.obj [])
  let languages ← getField data "languages"
  let langsJoined ← joinJs (jsOr languages (.arr [])) ", "
  let langsS := if langsJoined == "" then notSpecifiedPlaceholder else langsJoined
  let pkg ← getField data "hasPackageJson"
  let docker ← getField data "hasDockerfile"
  let tests ← getField data "hasTests"
  let ci ← getField data "hasCI"
  pure (analysisPromptTemplate (jsToString owner) (jsToString repo) langsS
    (if jsTruthyOpt pkg then yesLabel else noLabel)
    (if jsTruthyOpt docker then yesLabel else noLabel)
    (if jsTruthyOpt tests then yesLabel else noLabel)
    (if jsTruthyOpt ci then yesLabel else noLabel))

/-- One conditional content block of the part_001 template:
`value ? `...$\x7bvalue.substring(0, maxLen)\x7d...` : ''`.  The
`.substring` call throws on truthy non-string values. -/
def conditionalContentBlock (v : Option Json) (maxLen : Nat)
    (block : String → String) : Except String String :=
  if jsTruthyOpt v then
    match v with
    | some (.str s) => .ok (block (s.take maxLen))
    | _ => .error "TypeError: substring is not a function"
  else .ok ""

/-- `buildAnalysisPrompt` of the part_001 proxy server.  The body declares
`const data = analysisData || \x7b\x7d` but never uses `data`: every read
dereferences `analysisData` itself, so an absent `analysisData` throws at
`analysisData.languages`, and absent `languages`/`fileStructure` arrays
throw at `.join`. -/
def buildAnalysisPromptV1 (owner repo : Json) (analysisData : Option Json) :
    Except String String := do
  let languages ← getFieldOpt analysisData "languages"
  let langsJoined ← joinJsOpt languages ", "
  let langsS := if langsJoined == "" then notSpecifiedPlaceholderV1 else langsJoined
  let pkg ← getFieldOpt analysisData "hasPackageJson"
  let req ← getFieldOpt analysisData "hasRequirementsTxt"
  let pyproject ← getFieldOpt analysisData "hasPyprojectToml"
  let docker ← getFieldOpt analysisData "hasDockerfile"
  let tests ← getFieldOpt analysisData "hasTests"
  let ci ← getFieldOpt analysisData "hasCI"
  let readme ← getFieldOpt analysisData "hasReadme"
  let gitignore ← getFieldOpt analysisData "hasGitignore"
  let files ← getFieldOpt analysisData "fileStructure"
  let filesS ← joinJsOpt files "\n"
  let pkgContent ← getFieldOpt analysisData "packageJsonContent"
  let pkgBlockS ← conditionalContentBlock pkgContent 2000 analysisPromptV1PkgBlock
  let readmeContent ← getFieldOpt analysisData "readmeContent"
  let readmeBlockS ← conditionalContentBlock readmeContent 2000 analysisPromptV1ReadmeBlock
  let reqContent ← getFieldOpt analysisData "requirementsContent"
  let reqBlockS ← conditionalContentBlock reqContent 1000 analysisPromptV1ReqBlock
  pure (analysisPromptV1Template (jsToString owner) (jsToString repo) langsS
    (if jsTruthyOpt pkg then presentLabelV1 else absentLabelV1)
    (if jsTruthyOpt req then presentLabelV1 else absentLabelV1)
    (if jsTruthyOpt pyproject then presentLabelV1 else absentLabelV1)
    (if jsTruthyOpt docker then presentLabelV1 else absentLabelV1)
    (if jsTruthyOpt tests then presentLabelFemV1 else absentLabelFemV1)
    (if jsTruthyOpt ci then presentLabelV1 else absentLabelV1)
    (if jsTruthyOpt readme then presentLabelV1 else absentLabelV1)
    (if jsTruthyOpt gitignore then presentLabelV1 else absentLabelV1)
    filesS pkgBlockS readmeBlockS reqBlockS)

/-- One hexadecimal digit character (lowercase), for control-character
escapes. -/
def hexDigitChar (n : Nat) : Char :=
  Char.ofNat (if n < 10 then 48 + n else 87 + n)

/-- Escape of one character under `JSON.stringify`. -/
def jsonEscapeChar (c : Char) : String :=
  if c == '"' then "\\\""
  else if c == '\\' then "\\\\"
  else if c == '\n' then "\\n"
  else if c == '\t' then "\\t"
  else if c == '\r' then "\\r"
  else if c == '\x08' then "\\b"
  else if c == '\x0c' then "\\f"
  else if c.toNat < 32 then
    "\\u00" ++ String.mk [hexDigitChar (c.toNat / 16), hexDigitChar (c.toNat % 16)]
  else String.singleton c

/-- Quoted, escaped JSON string literal. -/
def quoteJsonString (s : String) : String :=
  "\"" ++ String.join (s.toList.map jsonEscapeChar) ++ "\""

mutual

/-- `JSON.stringify` (compact form, as called with a single argument). -/
def jsonStringify : Json → String
  | .null => "null"
  | .bool b => cond b "true" "false"
  | .num lex => lex
  | .str s => quoteJsonString s
  | .arr xs => "[" ++ jsonStringifyItems xs ++ "]"
  | .obj fields => "\x7b" ++ jsonStringifyFields fields ++ "\x7d"

/-- Comma-separated stringification of array elements. -/
def jsonStringifyItems : List Json → String
  | [] => ""
  | [x] => jsonStringify x
  | x :: xs => jsonStringify x ++ "," ++ jsonStringifyItems xs

/-- Comma-separated stringification of object members. -/
def jsonStringifyFields : List (String × Json) → String
  | [] => ""
  | [(k, v)] => quoteJsonString k ++ ":" ++ jsonStringify v
  | (k, v) :: fs => quoteJsonString k ++ ":" ++ jsonStringify v ++ "," ++ jsonStringifyFields fs

end

/-- Occurrence of `sub` as a contiguous run anywhere in `l`. -/
def containsSub (sub : List Char) : List Char → Bool
  | [] => sub.isEmpty
  | c :: rest => sub.isPrefixOf (c :: rest) || containsSub sub rest

/-- `String.prototype.includes(sub)`. -/
def jsIncludes (s sub : String) : Bool :=
  containsSub sub.toList s.toList

/-- Falsity of the server-side API key (`!GENAI_API_KEY`): the variable is
unset, or set to the empty string. -/
def keyMissing : Option String → Bool
  | none => true
  | some k => k == ""

/-- Error classification of the part_000 analyze handler catch branch:
`errorMessage.includes('Google') || errorMessage.includes('400') ||
errorMessage.includes('404')` selects AI_SERVICE_ERROR, everything else is
INTERNAL_ERROR. -/
def classifyAnalyzeError (msg : String) : String :=
  if jsIncludes msg "Google" || jsIncludes msg "400" || jsIncludes msg "404" then
    "AI_SERVICE_ERROR"
  else "INTERNAL_ERROR"

/-- Optional-chaining property access `v?.k` (short-circuits on nullish,
yields undefined on primitives). -/
def chainGet (v : Option Json) (k : String) : Option Json :=
  match v with
  | some (.obj fields) => lookupField fields k
  | _ => none

/-- Optional-chaining index access `v?.[0]` (string receivers are not
modelled — no claim exercises them). -/
def chainIdx0 (v : Option Json) : Option Json :=
  match v with
  | some (.arr (x :: _)) => some x
  | _ => none

example : jsonStringify (.obj []) = "\x7b\x7d" := rfl
example : classifyAnalyzeError "Gemini API error: 429 \x7b\x7d" = "INTERNAL_ERROR" := rfl
example : classifyAnalyzeError "Gemini API error: 404 \x7b\x7d" = "AI_SERVICE_ERROR" := rfl

/-- ASCII whitespace matched by the JS regex class `\s` and trimmed by
`String.prototype.trim` (the non-ASCII members of those sets are not
exercised by any claim). -/
def isRegexWs (c : Char) : Bool :=
  c == ' ' || c == '\t' || c == '\n' || c == '\r' || c == '\x0b' || c == '\x0c'

lemma length_dropWhile_le (p : Char → Bool) (l : List Char) :
    (l.dropWhile p).length ≤ l.length := by
  induction l with
  | nil => simp
  | cons c rest ih =>
    by_cases h : p c
    · rw [List.dropWhile_cons_of_pos h]
      exact Nat.le_succ_of_le ih
    · rw [List.dropWhile_cons_of_neg h]

/-- Match of the literal regex head "```json" at the start of the input. -/
def startsWithFenceJson (l : List Char) : Bool :=
  "```json".toList.isPrefixOf l

/-- First `replace` of the sanitizer: the global regex
`/```json\s*/g` — every occurrence of "```json" plus the greedy whitespace
run after it is deleted, scanning left to right and resuming after each
match, exactly as the JS regex engine does. -/
def stripJsonFenceOpeners : List Char → List Char
  | [] => []
  | c :: rest =>
    if startsWithFenceJson (c :: rest) then
      stripJsonFenceOpeners (((c :: rest).drop 7).dropWhile isRegexWs)
    else
      c :: stripJsonFenceOpeners rest
termination_by l => l.length
decreasing_by
  · have h1 := length_dropWhile_le isRegexWs ((c :: rest).drop 7)
    have h2 := List.length_drop 7 (c :: rest)
    simp only [List.length_cons] at *
    omega
  · simp

/-- Match of the anchored regex `/```\s*$/` at the start of the input: three
backticks followed by whitespace only. -/
def endsFenceWs (l : List Char) : Bool :=
  "```".toList.isPrefixOf l && (l.drop 3).all isRegexWs

/-- Second `replace` of the sanitizer: `/```\s*$/g` deletes the suffix
starting at the leftmost position where three backticks are followed by
whitespace up to the end of the string. -/
def stripTrailingFence : List Char → List Char
  | [] => []
  | c :: rest =>
    if endsFenceWs (c :: rest) then [] else c :: stripTrailingFence rest

/-- `String.prototype.trim`. -/
def trimJs (l : List Char) : List Char :=
  ((l.dropWhile isRegexWs).reverse.dropWhile isRegexWs).reverse

/-- Sanitization step of the part_000 analyze handler:
`responseText.replace(/```json\s*/g, '').replace(/```\s*$/g, '').trim()`. -/
def sanitizeModelText (l : List Char) : List Char :=
  trimJs (stripTrailingFence (stripJsonFenceOpeners l))

/-- An HTTP response of the proxy: status code and JSON body.  The `meta`
diagnostic block (duration, timestamp, model name) of the source responses
is not modelled — no claim mentions it. -/
structure HttpResponse where
  status : Nat
  body : Json

/-- Outcome of the single upstream `fetch` to the Gemini generateContent
endpoint: a non-2xx status with its (best-effort parsed) error body, or a
2xx status with its parsed JSON body. -/
inductive UpstreamOutcome where
  | httpError (status : Nat) (errorBody : Json)
  | ok (responseJson : Json)

/-- Message text of the engine's JSON.parse SyntaxError; modelled by a
fixed string, since no claim depends on the exact engine wording. -/
def jsonSyntaxErrorMessage : String := "Unexpected token"

/-- Failure body of the part_000 analyze handler catch branch. -/
def analyzeErrorBody (msg : String) : Json :=
  .obj [("error", .str analyzeErrorArabic),
        ("details", .obj [("message", .str msg),
                          ("type", .str (classifyAnalyzeError msg))])]

/-- The `POST /api/analyze` handler of the part_000 proxy server.  `owner`,
`repo` and `analysisData` are the destructured request-body fields (an
absent field arrives as `Json.null`, which is equally falsy); `upstream` is
the outcome the Gemini endpoint would give if called. -/
def analyzeHandler (apiKey : Option String) (owner repo : Json)
    (analysisData : Option Json) (upstream : UpstreamOutcome) : HttpResponse :=
  if !jsTruthy owner || !jsTruthy repo then
    ⟨400, .obj [("error", .str "Missing required fields: owner and repo are required")]⟩
  else if keyMissing apiKey then
    ⟨500, .obj [("error",
      .str "Configuration error: Analysis service is not available (KEY_MISSING_RUNTIME_CHECK).")]⟩
  else
    let attempt : Except String Json := do
      let _prompt ← buildAnalysisPrompt owner repo analysisData
      match upstream with
      | .httpError status errBody =>
        throw ("Gemini API error: " ++ toString status ++ " " ++ jsonStringify errBody)
      | .ok data => do
        let candidates ← getField data "candidates"
        let text := chainGet (chainIdx0 (chainGet (chainGet (chainIdx0 candidates)
          "content") "parts")) "text"
        if jsTruthyOpt text then
          match text with
          | some (.str s) =>
            match jsonParse (String.mk (sanitizeModelText s.toList)) with
            | some reportData => pure reportData
            | none => throw ("AI response was not valid JSON: " ++ jsonSyntaxErrorMessage)
          | _ => throw "TypeError: responseText.replace is not a function"
        else
          throw "Empty response received from Gemini API"
    match attempt with
    | .ok reportData => ⟨200, .obj [("success", .bool true), ("data", reportData)]⟩
    | .error msg => ⟨500, analyzeErrorBody msg⟩

/-- `createSafePrompt` of the embedded server variant (PRIVACY.md): builds
the prompt around `JSON.stringify(data, null, 2)` capped at 30000
characters.  The stringification is modelled compactly (no claim depends on
the indent-2 spacing); `JSON.stringify(undefined)` yields undefined, whose
`.length` read throws. -/
def createSafePrompt (owner repo : Json) (data : Option Json) :
    Except String String :=
  match data with
  | none => .error "TypeError: Cannot read properties of undefined (reading 'length')"
  | some d =>
    let dataString := jsonStringify d
    let dataString :=
      if dataString.length > 30000 then dataString.take 30000 ++ "\n... [TRUNCATED]"
      else dataString
    .ok (safePromptTemplate (jsToString owner) (jsToString repo) dataString)

/-- `callGeminiAPI` of the embedded server variant: throws on a missing
key, on a non-2xx upstream status, and otherwise yields
`data.candidates?.[0]?.content?.parts?.[0]?.text || ''`. -/
def callGeminiAPI (apiKey : Option String) (upstream : UpstreamOutcome) :
    Except String Json :=
  if keyMissing apiKey then
    .error "MISSING_API_KEY: Gemini API Key is not configured in .env"
  else
    match upstream with
    | .httpError status errBody =>
      .error ("Gemini API Error: " ++ toString status ++ " - " ++ jsonStringify errBody)
    | .ok data => do
      let candidates ← getField data "candidates"
      let text := chainGet (chainIdx0 (chainGet (chainGet (chainIdx0 candidates)
        "content") "parts")) "text"
      pure (jsOr text (.str ""))

/-- Regex extraction `responseText.match(/\x7b[\s\S]*\x7d/)` of the
embedded analyze endpoint: the slice from the first opening brace to the
last closing brace after it, `none` when no such pair exists. -/
def regexExtractBraces (l : List Char) : Option (List Char) :=
  let pre := l.takeWhile (fun c => c != '\x7b')
  let rest := l.drop pre.length
  match rest with
  | [] => none
  | _ =>
    let rev := rest.reverse
    let tail := rev.takeWhile (fun c => c != '\x7d')
    if tail.length == rev.length then none
    else some ((rev.drop tail.length).reverse)

/-- Fallback analysis object of the embedded analyze endpoint's catch
branch. -/
def embeddedFallbackAnalysis (msg : String) : Json :=
  .obj [("summary", .str "تعذر إكمال التحليل الذكي."),
        ("overallStatus", .str "needs_work"),
        ("domains", .arr [.obj
          [("title", .str "System Analysis"),
           ("status", .str "not-ready"),
           ("description", .str ("Error: " ++ msg)),
           ("findings", .arr [.str ("Error: " ++ msg)]),
           ("recommendations", .arr [.str "Check API Quota", .str "Verify API Key",
                                     .str "Try again later"])]]),
        ("criticalIssues", .arr [.str "AI Service Unavailable"]),
        ("recommendations", .arr [.str "Ensure GEMINI_API_KEY is set in .env"]),
        ("conclusion", .str "حدث خطأ أثناء الاتصال بخدمة التحليل.")]

/-- The `POST /api/analyze` handler of the embedded server variant
(PRIVACY.md).  Its catch branch answers HTTP 200 with `success: true` and a
fallback analysis — it never surfaces HTTP 500 for a missing key. -/
def embeddedAnalyzeHandler (apiKey : Option String) (owner repo : Json)
    (analysisData : Option Json) (upstream : UpstreamOutcome) : HttpResponse :=
  if !jsTruthy owner || !jsTruthy repo then
    ⟨400, .obj [("error", .str "Owner and repo are required")]⟩
  else
    let attempt : Except String Json := do
      let _prompt ← createSafePrompt owner repo analysisData
      let responseText ← callGeminiAPI apiKey upstream
      match responseText with
      | .str s =>
        let cleanJson := (regexExtractBraces s.toList).getD s.toList
        match jsonParse (String.mk cleanJson) with
        | some j => pure j
        | none => throw "Failed to parse AI response as JSON"
      | _ => throw "TypeError: responseText.match is not a function"
    match attempt with
    | .ok analysisResult =>
      ⟨200, .obj [("success", .bool true), ("data", analysisResult)]⟩
    | .error msg =>
      ⟨200, .obj [("success", .bool true), ("data", embeddedFallbackAnalysis msg)]⟩

example :
    sanitizeModelText "```json\n\x7b\"a\": 1\x7d\n```".toList
      = "\x7b\"a\": 1\x7d".toList := by
  simp +decide [sanitizeModelText, stripJsonFenceOpeners, stripTrailingFence,
    startsWithFenceJson, endsFenceWs, trimJs, isRegexWs]

example :
    sanitizeModelText "```\n\x7b\"a\": 1\x7d\n```".toList
      = "```\n\x7b\"a\": 1\x7d".toList := by
  simp +decide [sanitizeModelText, stripJsonFenceOpeners, stripTrailingFence,
    startsWithFenceJson, endsFenceWs, trimJs, isRegexWs]

/-- C2 (counterexample): an upstream HTTP 429 with an empty diagnostic body
is answered with HTTP 500 and the upstream error text preserved in
details.message, but details.type is INTERNAL_ERROR, not AI_SERVICE_ERROR:
the classifier looks for the substrings "Google", "400" and "404", and the
thrown message reads "Gemini API error: 429 ...". -/
theorem c2_429_classified_internal :
    analyzeHandler (some "key") (.str "o") (.str "r") (some (.obj []))
        (.httpError 429 (.obj []))
      = ⟨500, .obj [("error", .str analyzeErrorArabic),
            ("details", .obj [("message", .str "Gemini API error: 429 \x7b\x7d"),
                              ("type", .str "INTERNAL_ERROR")])]⟩
    ∧ "INTERNAL_ERROR" ≠ "AI_SERVICE_ERROR" := by
  refine ⟨rfl, ?_⟩
  decide

/-- C2 (amended): whenever the prompt builds and the upstream call yields a
non-2xx status, the proxy answers HTTP 500 with the upstream error text
("Gemini API error: status body") preserved in details.message, and
details.type is AI_SERVICE_ERROR exactly when that text contains "Google",
"400" or "404" — so a plain 429 is classified INTERNAL_ERROR. -/
theorem c2_upstream_error_response (apiKey : Option String)
    (hkey : keyMissing apiKey = false) (owner repo : Json)
    (ho : jsTruthy owner = true) (hr : jsTruthy repo = true)
    (analysisData : Option Json) (status : Nat) (errBody : Json)
    (hprompt : ∃ p, buildAnalysisPrompt owner repo analysisData = .ok p) :
    analyzeHandler apiKey owner repo analysisData (.httpError status errBody)
      = ⟨500, analyzeErrorBody
          ("Gemini API error: " ++ toString status ++ " " ++ jsonStringify errBody)⟩ := by
  obtain ⟨p, hp⟩ := hprompt
  simp only [analyzeHandler, ho, hr, hkey, hp, Bool.not_true, Bool.false_or,
    Bool.or_self, if_neg Bool.false_ne_true, if_neg]
  rfl

/-- C2 (witness): an upstream 404 flows through the amended theorem and —
because "404" is one of the classifier substrings — lands in
AI_SERVICE_ERROR. -/
theorem c2_upstream_error_response_witness :
    analyzeHandler (some "key") (.str "o") (.str "r") none (.httpError 404 (.obj []))
        = ⟨500, analyzeErrorBody "Gemini API error: 404 \x7b\x7d"⟩
    ∧ classifyAnalyzeError "Gemini API error: 404 \x7b\x7d" = "AI_SERVICE_ERROR" :=
  ⟨c2_upstream_error_response (some "key") rfl (.str "o") (.str "r") rfl rfl
    none 404 (.obj []) ⟨_, rfl⟩, rfl⟩

/-- C3 (counterexample): the embedded server variant (PRIVACY.md) answers a
missing API key — with truthy owner and repo — by HTTP 200 with a
success:true fallback report carrying the MISSING_API_KEY message, not by
HTTP 500. -/
theorem c3_embedded_missing_key_200 :
    embeddedAnalyzeHandler none (.str "o") (.str "r") (some (.obj [])) (.ok (.obj []))
      = ⟨200, .obj [("success", .bool true),
          ("data", embeddedFallbackAnalysis
            "MISSING_API_KEY: Gemini API Key is not configured in .env")]⟩
    ∧ (200 : Nat) ≠ 500 := by
  refine ⟨rfl, ?_⟩
  decide

/-- C3 (amended): in the main (part_000) proxy, a missing or empty API key
with truthy owner and repo yields HTTP 500 with the fixed
configuration-error body, and the response is independent of the upstream
outcome — the upstream service is never consulted and the absent key cannot
appear in the constant body.  The embedded PRIVACY.md variant instead
answers HTTP 200 with a success:true fallback report. -/
theorem c3_main_missing_key_500 (owner repo : Json) (analysisData : Option Json)
    (ho : jsTruthy owner = true) (hr : jsTruthy repo = true)
    (apiKey : Option String) (hkey : keyMissing apiKey = true)
    (upstream1 upstream2 : UpstreamOutcome) :
    analyzeHandler apiKey owner repo analysisData upstream1
      = ⟨500, .obj [("error",
          .str "Configuration error: Analysis service is not available (KEY_MISSING_RUNTIME_CHECK).")]⟩
    ∧ analyzeHandler apiKey owner repo analysisData upstream1
      = analyzeHandler apiKey owner repo analysisData upstream2 := by
  have h : ∀ u, analyzeHandler apiKey owner repo analysisData u
      = ⟨500, .obj [("error",
          .str "Configuration error: Analysis service is not available (KEY_MISSING_RUNTIME_CHECK).")]⟩ := by
    intro u
    simp [analyzeHandler, ho, hr, hkey]
  exact ⟨h upstream1, (h upstream1).trans (h upstream2).symm⟩

/-- C3 (witness): the amended theorem applied with no key, owner "o", repo
"r", and two different upstream outcomes. -/
theorem c3_main_missing_key_500_witness :
    analyzeHandler none (.str "o") (.str "r") (some (.obj []))
        (.httpError 429 (.obj []))
      = ⟨500, .obj [("error",
          .str "Configuration error: Analysis service is not available (KEY_MISSING_RUNTIME_CHECK).")]⟩
    ∧ analyzeHandler none (.str "o") (.str "r") (some (.obj []))
        (.httpError 429 (.obj []))
      = analyzeHandler none (.str "o") (.str "r") (some (.obj [])) (.ok (.obj [])) :=
  c3_main_missing_key_500 (.str "o") (.str "r") (some (.obj [])) rfl rfl none rfl
    (.httpError 429 (.obj [])) (.ok (.obj []))

set_option maxRecDepth 8192 in
/-- C4: the part_001 variant of buildAnalysisPrompt throws a TypeError as
soon as analysisData is absent — its `const data = analysisData || ...`
presence check is dead code, since the template dereferences analysisData
directly — while the part_000 variant returns a prompt in which the missing
language list renders as the "not specified" placeholder. -/
theorem c4_buildAnalysisPrompt_variants :
    buildAnalysisPromptV1 (.str "o") (.str "r") none
      = .error "TypeError: Cannot read properties of undefined (reading 'languages')"
    ∧ ∃ p, buildAnalysisPrompt (.str "o") (.str "r") none = .ok p
        ∧ jsIncludes p notSpecifiedPlaceholder = true := by
  refine ⟨rfl, ⟨_, rfl, ?_⟩⟩
  decide

lemma ws_ne_char {c a : Char} (h : isRegexWs c = true) (ha : isRegexWs a = false) :
    a ≠ c := by
  intro hac
  rw [hac] at ha
  rw [h] at ha
  exact Bool.noConfusion ha

lemma beq_eq_false_of_ne {a c : Char} (h : a ≠ c) : (a == c) = false := by
  simpa using h

lemma startsWithFenceJson_cons_ne (c : Char) (t : List Char) (h : c ≠ '`') :
    startsWithFenceJson (c :: t) = false := by
  have hform : "```json".toList = '`' :: "``json".toList := rfl
  rw [startsWithFenceJson, hform, List.isPrefixOf]
  rw [beq_eq_false_of_ne (fun he => h he.symm)]
  rfl

lemma stripJsonFenceOpeners_append_no_tick (xs t : List Char)
    (h : ∀ c ∈ xs, c ≠ '`') :
    stripJsonFenceOpeners (xs ++ t) = xs ++ stripJsonFenceOpeners t := by
  induction xs with
  | nil => simp
  | cons c xs ih =>
    rw [List.cons_append]
    have hc : startsWithFenceJson (c :: (xs ++ t)) = false :=
      startsWithFenceJson_cons_ne c (xs ++ t) (h c (by simp))
    simp only [stripJsonFenceOpeners, hc, Bool.false_eq_true, if_false]
    rw [ih (fun d hd => h d (by simp [hd]))]
    rfl

lemma isPrefixOf_append_self (l r : List Char) : l.isPrefixOf (l ++ r) = true := by
  induction l with
  | nil => simp [List.isPrefixOf]
  | cons a as ih => simp [List.isPrefixOf, ih]

lemma stripJsonFenceOpeners_fence (r : List Char) :
    stripJsonFenceOpeners ("```json".toList ++ r)
      = stripJsonFenceOpeners (r.dropWhile isRegexWs) := by
  have hcond : startsWithFenceJson ("```json".toList ++ r) = true := by
    rw [startsWithFenceJson]
    exact isPrefixOf_append_self _ r
  rw [show "```json".toList ++ r = '`' :: ("``json".toList ++ r) from rfl] at hcond ⊢
  simp only [stripJsonFenceOpeners, hcond, if_true]
  rw [show ('`' :: ("``json".toList ++ r)).drop 7 = r from rfl]

lemma startsWithFenceJson_ticks_ws (w : List Char) (hw : ∀ c ∈ w, isRegexWs c = true) :
    startsWithFenceJson ('`' :: '`' :: '`' :: w) = false := by
  cases w with
  | nil => rfl
  | cons c w =>
    have : ('j' == c) = false :=
      beq_eq_false_of_ne (ws_ne_char (hw c (by simp)) (by rfl))
    simp [startsWithFenceJson, List.isPrefixOf, this]

lemma startsWithFenceJson_two_ticks_ws (w : List Char)
    (hw : ∀ c ∈ w, isRegexWs c = true) :
    startsWithFenceJson ('`' :: '`' :: w) = false := by
  cases w with
  | nil => rfl
  | cons c w =>
    have : ('`' == c) = false :=
      beq_eq_false_of_ne (ws_ne_char (hw c (by simp)) (by rfl))
    simp [startsWithFenceJson, List.isPrefixOf, this]

lemma startsWithFenceJson_one_tick_ws (w : List Char)
    (hw : ∀ c ∈ w, isRegexWs c = true) :
    startsWithFenceJson ('`' :: w) = false := by
  cases w with
  | nil => rfl
  | cons c w =>
    have : ('`' == c) = false :=
      beq_eq_false_of_ne (ws_ne_char (hw c (by simp)) (by rfl))
    simp [startsWithFenceJson, List.isPrefixOf, this]

lemma ne_tick_of_ws {c : Char} (h : isRegexWs c = true) : c ≠ '`' := by
  intro hc
  rw [hc] at h
  exact absurd h (by decide)

lemma stripJsonFenceOpeners_ws (w : List Char) (hw : ∀ c ∈ w, isRegexWs c = true) :
    stripJsonFenceOpeners w = w := by
  have h := stripJsonFenceOpeners_append_no_tick w []
    (fun c hc => ne_tick_of_ws (hw c hc))
  have h0 : stripJsonFenceOpeners ([] : List Char) = [] := by
    simp [stripJsonFenceOpeners]
  rw [h0] at h
  simpa using h

lemma stripJsonFenceOpeners_close (w : List Char)
    (hw : ∀ c ∈ w, isRegexWs c = true) :
    stripJsonFenceOpeners ('`' :: '`' :: '`' :: w) = '`' :: '`' :: '`' :: w := by
  have h0 := startsWithFenceJson_ticks_ws w hw
  have h1 := startsWithFenceJson_two_ticks_ws w hw
  have h2 := startsWithFenceJson_one_tick_ws w hw
  simp only [stripJsonFenceOpeners, h0, h1, h2, Bool.false_eq_true, if_false]
  rw [stripJsonFenceOpeners_ws w hw]

lemma endsFenceWs_cons_ne (c : Char) (t : List Char) (h : c ≠ '`') :
    endsFenceWs (c :: t) = false := by
  have hb : ('`' == c) = false := beq_eq_false_of_ne (fun he => h he.symm)
  simp [endsFenceWs, show "```".toList = '`' :: '`' :: '`' :: [] from rfl,
    List.isPrefixOf, hb]

lemma stripTrailingFence_append_no_tick (xs t : List Char)
    (h : ∀ c ∈ xs, c ≠ '`') :
    stripTrailingFence (xs ++ t) = xs ++ stripTrailingFence t := by
  induction xs with
  | nil => simp
  | cons c xs ih =>
    rw [List.cons_append]
    have hc : endsFenceWs (c :: (xs ++ t)) = false :=
      endsFenceWs_cons_ne c (xs ++ t) (h c (by simp))
    simp only [stripTrailingFence, hc, Bool.false_eq_true, if_false]
    rw [ih (fun d hd => h d (by simp [hd]))]
    rfl

lemma endsFenceWs_close (w : List Char) (hw : ∀ c ∈ w, isRegexWs c = true) :
    endsFenceWs ('`' :: '`' :: '`' :: w) = true := by
  rw [show ('`' :: '`' :: '`' :: w) = "```".toList ++ w from rfl]
  rw [endsFenceWs]
  rw [isPrefixOf_append_self]
  rw [show ("```".toList ++ w).drop 3 = w from rfl]
  simp only [Bool.true_and, List.all_eq_true]
  exact hw

lemma stripTrailingFence_close (w : List Char) (hw : ∀ c ∈ w, isRegexWs c = true) :
    stripTrailingFence ('`' :: '`' :: '`' :: w) = [] := by
  simp only [stripTrailingFence, endsFenceWs_close w hw, if_true]

lemma dropWhile_ws_append (w t : List Char) (hw : ∀ c ∈ w, isRegexWs c = true) :
    (w ++ t).dropWhile isRegexWs = t.dropWhile isRegexWs := by
  induction w with
  | nil => simp
  | cons c w ih =>
    rw [List.cons_append, List.dropWhile_cons_of_pos (hw c (by simp))]
    exact ih (fun d hd => hw d (by simp [hd]))

lemma head_not_of_dropWhile_self (p : Char → Bool) (x : Char) (xs : List Char)
    (h : (x :: xs).dropWhile p = x :: xs) : p x = false := by
  by_cases hx : p x
  · rw [List.dropWhile_cons_of_pos hx] at h
    have hlen := congrArg List.length h
    have hle := length_dropWhile_le p xs
    simp only [List.length_cons] at hlen
    omega
  · simpa using hx

/-- C5 (amended): for every model response of the shape
whitespace ++ "```json" ++ whitespace ++ J ++ whitespace ++ "```" ++
whitespace, where the inner JSON document J is trimmed, non-empty and free
of backticks, the sanitization recovers exactly J — so the subsequent
JSON.parse is applied to precisely the inner document and yields its value.
The opening fence must carry the "json" tag: the first replace deletes only
"```json" occurrences. -/
theorem c5_sanitize_recovers_document (w1 w2 w3 w4 J : List Char)
    (hw1 : ∀ c ∈ w1, isRegexWs c = true) (hw2 : ∀ c ∈ w2, isRegexWs c = true)
    (hw3 : ∀ c ∈ w3, isRegexWs c = true) (hw4 : ∀ c ∈ w4, isRegexWs c = true)
    (hJne : J ≠ []) (hJtick : ∀ c ∈ J, c ≠ '`')
    (hJfirst : J.dropWhile isRegexWs = J)
    (hJlast : J.reverse.dropWhile isRegexWs = J.reverse) :
    sanitizeModelText (w1 ++ "```json".toList ++ w2 ++ J ++ w3 ++ "```".toList ++ w4)
      = J
    ∧ jsonParse (String.mk (sanitizeModelText
        (w1 ++ "```json".toList ++ w2 ++ J ++ w3 ++ "```".toList ++ w4)))
      = jsonParse (String.mk J) := by
  obtain ⟨j, J', rfl⟩ : ∃ j J', J = j :: J' := by
    cases J with
    | nil => exact absurd rfl hJne
    | cons j J' => exact ⟨j, J', rfl⟩
  have hjhead : isRegexWs j = false :=
    head_not_of_dropWhile_self isRegexWs j J' hJfirst
  have hmain : sanitizeModelText
      (w1 ++ "```json".toList ++ w2 ++ (j :: J') ++ w3 ++ "```".toList ++ w4)
      = j :: J' := by
    rw [show w1 ++ "```json".toList ++ w2 ++ (j :: J') ++ w3 ++ "```".toList ++ w4
        = w1 ++ ("```json".toList ++ (w2 ++ ((j :: J') ++ (w3 ++ ("```".toList ++ w4)))))
      from by simp [List.append_assoc]]
    rw [sanitizeModelText]
    rw [stripJsonFenceOpeners_append_no_tick w1 _
      (fun c hc => ne_tick_of_ws (hw1 c hc))]
    rw [stripJsonFenceOpeners_fence]
    rw [dropWhile_ws_append w2 _ hw2]
    have hd1 : List.dropWhile isRegexWs (j :: (J' ++ (w3 ++ ("```".toList ++ w4))))
        = j :: (J' ++ (w3 ++ ("```".toList ++ w4))) :=
      List.dropWhile_cons_of_neg (by simp [hjhead])
    rw [show (j :: J') ++ (w3 ++ ("```".toList ++ w4))
        = j :: (J' ++ (w3 ++ ("```".toList ++ w4))) from rfl, hd1,
      show j :: (J' ++ (w3 ++ ("```".toList ++ w4)))
        = (j :: J') ++ (w3 ++ ("```".toList ++ w4)) from rfl]
    rw [stripJsonFenceOpeners_append_no_tick (j :: J') _ hJtick]
    rw [stripJsonFenceOpeners_append_no_tick w3 _
      (fun c hc => ne_tick_of_ws (hw3 c hc))]
    rw [show "```".toList ++ w4 = '`' :: '`' :: '`' :: w4 from rfl]
    rw [stripJsonFenceOpeners_close w4 hw4]
    rw [stripTrailingFence_append_no_tick w1 _
      (fun c hc => ne_tick_of_ws (hw1 c hc))]
    rw [stripTrailingFence_append_no_tick (j :: J') _ hJtick]
    rw [stripTrailingFence_append_no_tick w3 _
      (fun c hc => ne_tick_of_ws (hw3 c hc))]
    rw [stripTrailingFence_close w4 hw4]
    rw [trimJs]
    rw [dropWhile_ws_append w1 _ hw1]
    rw [List.append_nil]
    rw [List.cons_append]
    rw [show List.dropWhile isRegexWs (j :: (J' ++ w3)) = j :: (J' ++ w3)
      from List.dropWhile_cons_of_neg (by simp [hjhead])]
    rw [show j :: (J' ++ w3) = (j :: J') ++ w3 from rfl]
    rw [List.reverse_append]
    rw [dropWhile_ws_append w3.reverse _
      (fun c hc => hw3 c (List.mem_reverse.mp hc))]
    rw [hJlast]
    exact List.reverse_reverse _
  exact ⟨hmain, by rw [hmain]⟩

/-- C5 (counterexample): a valid JSON document wrapped in plain (untagged)
Markdown code fences is not recovered — the sanitizer strips only the
trailing fence, the leading "```" survives, and JSON.parse fails — even
though the inner document parses on its own. -/
theorem c5_plain_fence_parse_fails :
    sanitizeModelText "```\n\x7b\"a\": 1\x7d\n```".toList
      = "```\n\x7b\"a\": 1\x7d".toList
    ∧ jsonParse (String.mk (sanitizeModelText "```\n\x7b\"a\": 1\x7d\n```".toList))
      = none
    ∧ jsonParse "\x7b\"a\": 1\x7d" = some (.obj [("a", .num "1")]) := by
  have h1 : sanitizeModelText "```\n\x7b\"a\": 1\x7d\n```".toList
      = "```\n\x7b\"a\": 1\x7d".toList := by
    simp +decide [sanitizeModelText, stripJsonFenceOpeners, stripTrailingFence,
      startsWithFenceJson, endsFenceWs, trimJs, isRegexWs]
  refine ⟨h1, ?_, rfl⟩
  rw [h1]
  rfl

/-- C5 (witness): the amended theorem applied to a concrete json-tagged
fenced response recovers the inner document. -/
theorem c5_sanitize_recovers_document_witness :
    sanitizeModelText "```json\n\x7b\"ok\": true\x7d\n```".toList
      = "\x7b\"ok\": true\x7d".toList
    ∧ jsonParse (String.mk (sanitizeModelText "```json\n\x7b\"ok\": true\x7d\n```".toList))
      = some (.obj [("ok", .bool true)]) := by
  have h := c5_sanitize_recovers_document [] ['\n'] ['\n'] []
    "\x7b\"ok\": true\x7d".toList
    (by decide) (by decide) (by decide) (by decide) (by decide) (by decide) rfl rfl
  have hin : "```json\n\x7b\"ok\": true\x7d\n```".toList
      = [] ++ "```json".toList ++ ['\n'] ++ "\x7b\"ok\": true\x7d".toList
        ++ ['\n'] ++ "```".toList ++ [] := by decide
  rw [hin]
  exact ⟨h.1, by rw [h.1]; rfl⟩
